import Mathlib

/-!
Verification of the query-understanding / progressive-relaxation search engine
of the dialog-ai repository (src/chatbot/chatbotSearch/search.py).

The Python source is shallowly embedded:
* strings are `List Char` (`Str`), so that every embedded function evaluates
  inside the kernel (Lean's built-in `String` primitives do not reduce there);
* `datetime` values are a record of calendar fields; `datetime(...)`
  construction, which raises `ValueError` on invalid dates, becomes an
  `Option`-returning `mk_datetime`; `timedelta` day arithmetic goes through
  the standard civil-calendar ordinal (days since 1970-01-01);
* the handful of regular expressions used by the source are embedded as
  hand-written scanners over `Str`; wherever a regex quantifier is compiled
  to a greedy no-backtracking scan, a comment justifies the equivalence;
* `sorted` (Python, stable) and SQL `ORDER BY` are modelled with
  `List.insertionSort` over a total preorder on the sort key, which is a
  stable sort; SQL `WHERE` clauses become Boolean row predicates;
* store access and the external formatting collaborators are parameters
  (the spec declares them external); exceptions raised by the store are
  `Except` values.
-/

set_option linter.unusedVariables false

abbrev Str := List Char

/-- Substring test, Python's `needle in hay` for strings. -/
def strContains (hay needle : Str) : Bool :=
  match hay with
  | [] => needle.isPrefixOf []
  | _ :: t => needle.isPrefixOf hay || strContains t needle

def strContainsAny (hay : Str) (needles : List Str) : Bool :=
  needles.any (fun n => strContains hay n)

/-- Python `str.lower` (only ASCII letters are affected by the inputs
the source feeds it; Korean syllables are uncased). -/
def lowerStr (s : Str) : Str := s.map Char.toLower

/-- Python `str.upper`. -/
def upperStr (s : Str) : Str := s.map Char.toUpper

def startsWithS (s p : Str) : Bool := p.isPrefixOf s

def endsWithS (s p : Str) : Bool :=
  decide (p.length ≤ s.length) && (s.drop (s.length - p.length) == p)

/-- Python `str.strip` (trim whitespace from both ends). -/
def stripWs (s : Str) : Str :=
  ((s.dropWhile Char.isWhitespace).reverse.dropWhile Char.isWhitespace).reverse

/-- Korean syllable block, the `[가-힣]` character class of the source. -/
def isHangul (c : Char) : Bool :=
  decide (0xAC00 ≤ c.toNat) && decide (c.toNat ≤ 0xD7A3)

/-- The `[A-Za-z0-9]` character class of the source. -/
def isAsciiAlnum (c : Char) : Bool := c.isDigit || c.isUpper || c.isLower

def digitVal (c : Char) : Nat := c.toNat - '0'.toNat

/-- Decimal digits of a number below 100, as written by Python's
formatting of the parsed `int` groups (all are 1- or 2-digit). -/
def digitsOfNat (n : Nat) : Str :=
  if n < 10 then [Char.ofNat ('0'.toNat + n)]
  else [Char.ofNat ('0'.toNat + n / 10), Char.ofNat ('0'.toNat + n % 10)]

-- ============================================================
-- Python datetime model
-- ============================================================

structure PyDateTime where
  year : Int
  month : Nat
  day : Nat
  hour : Nat
  minute : Nat
  second : Nat
deriving DecidableEq, Repr

/-- Gregorian leap year, as `calendar.isleap` / `datetime` use it. -/
def isLeap (y : Int) : Bool :=
  y % 4 == 0 && (y % 100 != 0 || y % 400 == 0)

def daysInMonth (y : Int) (m : Nat) : Nat :=
  if m == 2 then (if isLeap y then 29 else 28)
  else if m == 4 || m == 6 || m == 9 || m == 11 then 30
  else 31

/-- `datetime(year, month, day, hour, minute, second)`: raises `ValueError`
(here: `none`) unless all fields are in range. -/
def mk_datetime (y : Int) (m d hh mi ss : Nat) : Option PyDateTime :=
  if 1 ≤ m ∧ m ≤ 12 ∧ 1 ≤ d ∧ d ≤ daysInMonth y m ∧ hh ≤ 23 ∧ mi ≤ 59 ∧ ss ≤ 59
  then some ⟨y, m, d, hh, mi, ss⟩ else none

/-- Days since 1970-01-01 (civil-from-days, Hinnant's algorithm; the
`(y - 399) / 400` form is written for truncating integer division, which is
what Lean's `Int` division is). -/
def toOrdinal (y : Int) (m d : Nat) : Int :=
  let y' : Int := if m ≤ 2 then y - 1 else y
  let era : Int := (if 0 ≤ y' then y' else y' - 399) / 400
  let yoe : Int := y' - era * 400
  let mp : Int := if m > 2 then (m : Int) - 3 else (m : Int) + 9
  let doy : Int := (153 * mp + 2) / 5 + (d : Int) - 1
  let doe : Int := yoe * 365 + yoe / 4 - yoe / 100 + doy
  era * 146097 + doe - 719468

/-- Inverse of `toOrdinal` (days-to-civil). -/
def fromOrdinal (z0 : Int) : Int × Nat × Nat :=
  let z : Int := z0 + 719468
  let era : Int := (if 0 ≤ z then z else z - 146096) / 146097
  let doe : Int := z - era * 146097
  let yoe : Int := (doe - doe / 1460 + doe / 36524 - doe / 146096) / 365
  let y : Int := yoe + era * 400
  let doy : Int := doe - (365 * yoe + yoe / 4 - yoe / 100)
  let mp : Int := (5 * doy + 2) / 153
  let d : Int := doy - (153 * mp + 2) / 5 + 1
  let m : Int := if mp < 10 then mp + 3 else mp - 9
  (if m ≤ 2 then y + 1 else y, m.toNat, d.toNat)

/-- `dt + timedelta(days = n)` (time of day is preserved). -/
def addDays (dt : PyDateTime) (n : Int) : PyDateTime :=
  let o := toOrdinal dt.year dt.month dt.day + n
  let c := fromOrdinal o
  ⟨c.1, c.2.1, c.2.2, dt.hour, dt.minute, dt.second⟩

/-- Python `date.weekday()`: Monday = 0.  1970-01-01 was a Thursday. -/
def pyWeekday (dt : PyDateTime) : Nat :=
  ((toOrdinal dt.year dt.month dt.day + 3) % 7).toNat

/-- Chronological order on datetimes (what SQL comparison of `DATETIME`
values is). -/
def dtLe (a b : PyDateTime) : Bool :=
  decide (a.year < b.year) ||
  (a.year == b.year && (decide (a.month < b.month) ||
    (a.month == b.month && (decide (a.day < b.day) ||
      (a.day == b.day && (decide (a.hour < b.hour) ||
        (a.hour == b.hour && (decide (a.minute < b.minute) ||
          (a.minute == b.minute && decide (a.second ≤ b.second))))))))))

def dtLt (a b : PyDateTime) : Bool := dtLe a b && !(a == b)

def sameDate (a b : PyDateTime) : Bool :=
  a.year == b.year && a.month == b.month && a.day == b.day

-- ============================================================
-- Regex-lite scanners for parse_date_from_query
-- ============================================================

/-- One-or-two decimal digits, greedy, the `(\d{1,2})` group.  In every
pattern of the source the group is immediately followed by a non-digit
literal (`월`, `일`, `년`), so the regex backtracking from two digits to one
can never succeed (the one-digit alternative would require the following
character to be both a digit and that literal); a committed greedy scan is
therefore equivalent. -/
def pDigits12 : Str → Option (Nat × Str)
  | c1 :: c2 :: rest =>
    if c1.isDigit then
      if c2.isDigit then some (10 * digitVal c1 + digitVal c2, rest)
      else some (digitVal c1, c2 :: rest)
    else none
  | [c1] => if c1.isDigit then some (digitVal c1, []) else none
  | [] => none

/-- Exactly four decimal digits, the `(\d{4})` group. -/
def pDigits4 : Str → Option (Nat × Str)
  | c1 :: c2 :: c3 :: c4 :: rest =>
    if c1.isDigit && c2.isDigit && c3.isDigit && c4.isDigit then
      some (1000 * digitVal c1 + 100 * digitVal c2 + 10 * digitVal c3 +
        digitVal c4, rest)
    else none
  | _ => none

def pChar (c : Char) : Str → Option (Unit × Str)
  | x :: rest => if x == c then some ((), rest) else none
  | [] => none

def pStr (p : Str) (s : Str) : Option (Unit × Str) :=
  if p.isPrefixOf s then some ((), s.drop p.length) else none

/-- `\s*`, greedy.  In every pattern of the source it is followed by a
digit or a Korean literal, never by a whitespace character, so the greedy
no-backtracking scan is equivalent. -/
def pWs (s : Str) : Unit × Str := ((), s.dropWhile Char.isWhitespace)

/-- `[-~]`. -/
def pDash : Str → Option (Unit × Str)
  | x :: rest => if x == '-' || x == '~' then some ((), rest) else none
  | [] => none

/-- `(\d{1,2})월\s*(\d{1,2})일` as a prefix match, shared head of all the
date patterns. -/
def pMonthDay (s : Str) : Option ((Nat × Nat) × Str) :=
  match pDigits12 s with
  | none => none
  | some (m, s) =>
    match pChar '월' s with
    | none => none
    | some (_, s) =>
      let (_, s) := pWs s
      match pDigits12 s with
      | none => none
      | some (d, s) =>
        match pChar '일' s with
        | none => none
        | some (_, s) => some ((m, d), s)

/-- `(\d{1,2})월\s*(\d{1,2})일\s*부터\s*(\d{1,2})월\s*(\d{1,2})일`. -/
def pRange1 (s : Str) : Option ((Nat × Nat × Nat × Nat) × Str) :=
  match pMonthDay s with
  | none => none
  | some ((m1, d1), s) =>
    let (_, s) := pWs s
    match pStr "부터".data s with
    | none => none
    | some (_, s) =>
      let (_, s) := pWs s
      match pMonthDay s with
      | none => none
      | some ((m2, d2), s) => some ((m1, d1, m2, d2), s)

/-- `(\d{1,2})월\s*(\d{1,2})일\s*부터\s*오늘(?:까지)?` (the optional `까지`
consumes no groups and ends the pattern, so matching it cannot change
whether the search succeeds nor the captured groups). -/
def pRange2 (s : Str) : Option ((Nat × Nat) × Str) :=
  match pMonthDay s with
  | none => none
  | some ((m1, d1), s) =>
    let (_, s) := pWs s
    match pStr "부터".data s with
    | none => none
    | some (_, s) =>
      let (_, s) := pWs s
      match pStr "오늘".data s with
      | none => none
      | some (_, s) => some ((m1, d1), s)

/-- `(\d{1,2})월\s*(\d{1,2})일\s*[-~]\s*(\d{1,2})월\s*(\d{1,2})일`. -/
def pRange3 (s : Str) : Option ((Nat × Nat × Nat × Nat) × Str) :=
  match pMonthDay s with
  | none => none
  | some ((m1, d1), s) =>
    let (_, s) := pWs s
    match pDash s with
    | none => none
    | some (_, s) =>
      let (_, s) := pWs s
      match pMonthDay s with
      | none => none
      | some ((m2, d2), s) => some ((m1, d1, m2, d2), s)

/-- `(\d{1,2})월\s*(\d{1,2})일\s*[-~]\s*오늘`. -/
def pRange4 (s : Str) : Option ((Nat × Nat) × Str) :=
  match pMonthDay s with
  | none => none
  | some ((m1, d1), s) =>
    let (_, s) := pWs s
    match pDash s with
    | none => none
    | some (_, s) =>
      let (_, s) := pWs s
      match pStr "오늘".data s with
      | none => none
      | some (_, s) => some ((m1, d1), s)

/-- `(\d{1,2})월`. -/
def pMonthOnly (s : Str) : Option (Nat × Str) :=
  match pDigits12 s with
  | none => none
  | some (m, s) =>
    match pChar '월' s with
    | none => none
    | some (_, s) => some (m, s)

/-- `(\d{4})년\s*(\d{1,2})월\s*(\d{1,2})일`. -/
def pYmd (s : Str) : Option ((Nat × Nat × Nat) × Str) :=
  match pDigits4 s with
  | none => none
  | some (y, s) =>
    match pChar '년' s with
    | none => none
    | some (_, s) =>
      let (_, s) := pWs s
      match pMonthDay s with
      | none => none
      | some ((m, d), s) => some ((y, m, d), s)

/-- `(\d{1,2})월\s*~\s*(\d{1,2})월`. -/
def pMonthTildeMonth (s : Str) : Option ((Nat × Nat) × Str) :=
  match pDigits12 s with
  | none => none
  | some (m1, s) =>
    match pChar '월' s with
    | none => none
    | some (_, s) =>
      let (_, s) := pWs s
      match pChar '~' s with
      | none => none
      | some (_, s) =>
        let (_, s) := pWs s
        match pDigits12 s with
        | none => none
        | some (m2, s) =>
          match pChar '월' s with
          | none => none
          | some (_, s) => some ((m1, m2), s)

/-- `(\d{1,2})월부터\s*(\d{1,2})월까지`. -/
def pMonthButeoMonth (s : Str) : Option ((Nat × Nat) × Str) :=
  match pDigits12 s with
  | none => none
  | some (m1, s) =>
    match pStr "월부터".data s with
    | none => none
    | some (_, s) =>
      let (_, s) := pWs s
      match pDigits12 s with
      | none => none
      | some (m2, s) =>
        match pStr "월까지".data s with
        | none => none
        | some (_, s) => some ((m1, m2), s)

/-- `re.search`: try the pattern at every position, leftmost match wins. -/
def searchA {α : Type} (m : Str → Option (α × Str)) : Str → Option α
  | [] => match m [] with
    | some (g, _) => some g
    | none => none
  | c :: t => match m (c :: t) with
    | some (g, _) => some g
    | none => searchA m t


-- ============================================================
-- parse_date_from_query (search.py lines 39-317)
-- ============================================================

/-- The dict returned by `parse_date_from_query`.  `recent_flag` is a key
the source only sets on the `최근` branch; absence is modelled as
`false`. -/
structure DateInfo where
  type : Option Str
  start_date : Option PyDateTime
  end_date : Option PyDateTime
  original : Option Str
  recent_flag : Bool := false
deriving DecidableEq, Repr

def emptyDateInfo : DateInfo :=
  { type := none, start_date := none, end_date := none, original := none }

/-- Handler for range patterns 1 and 3 (`N월 N일부터/[-~] M월 M일`); the
matched text of these patterns consists of digits, `월`, `일`, `부터`, `-`,
`~` and whitespace only, so the source's `'오늘' in match.group(0)` test is
always false for them and the four-group branch runs.  `try/except
ValueError: pass` around the two `datetime` constructions becomes: any
`none` from `mk_datetime` makes the handler yield `none`. -/
def rangeFourHandler (today : PyDateTime) (sep : Str)
    (g : Nat × Nat × Nat × Nat) : Option DateInfo :=
  match g with
  | (m1, d1, m2, d2) =>
    match mk_datetime today.year m1 d1 0 0 0 with
    | none => none
    | some s =>
      match mk_datetime today.year m2 d2 23 59 59 with
      | none => none
      | some e =>
        some { type := some "range".data, start_date := some s,
               end_date := some e,
               original := some (digitsOfNat m1 ++ "월 ".data ++
                 digitsOfNat d1 ++ sep ++ digitsOfNat m2 ++ "월 ".data ++
                 digitsOfNat d2 ++ "일".data) }

/-- `dt.replace(hour=0, minute=0, second=0)`. -/
def atStartOfDay (dt : PyDateTime) : PyDateTime :=
  { dt with hour := 0, minute := 0, second := 0 }

/-- `dt.replace(hour=23, minute=59, second=59)`. -/
def atEndOfDay (dt : PyDateTime) : PyDateTime :=
  { dt with hour := 23, minute := 59, second := 59 }

/-- Handler for range patterns 2 and 4 (`N월 N일부터/[-~] 오늘`); their
matched text always contains `오늘`, so the source's today-branch runs:
only the start `datetime` construction can raise. -/
def rangeTodayHandler (today : PyDateTime) (g : Nat × Nat) :
    Option DateInfo :=
  match g with
  | (m1, d1) =>
    match mk_datetime today.year m1 d1 0 0 0 with
    | none => none
    | some s =>
      some { type := some "range".data, start_date := some s,
             end_date := some (atEndOfDay today),
             original := some (digitsOfNat m1 ++ "월 ".data ++
               digitsOfNat d1 ++ "일부터 오늘".data) }

/-- The `for pattern in range_patterns` loop (lines 69-106 and its verbatim
repetition at lines 195-232): each pattern is searched in turn; an invalid
date (`ValueError`) abandons that pattern and the loop moves to the next
one. -/
def rangeBlockRest3 (today : PyDateTime) (q : Str) : Option DateInfo :=
  match searchA pRange4 q with
  | some g => rangeTodayHandler today g
  | none => none

def rangeBlockRest2 (today : PyDateTime) (q : Str) : Option DateInfo :=
  match searchA pRange3 q with
  | some g =>
    match rangeFourHandler today "일부터 ".data g with
    | some r => some r
    | none => rangeBlockRest3 today q
  | none => rangeBlockRest3 today q

def rangeBlockRest1 (today : PyDateTime) (q : Str) : Option DateInfo :=
  match searchA pRange2 q with
  | some g =>
    match rangeTodayHandler today g with
    | some r => some r
    | none => rangeBlockRest2 today q
  | none => rangeBlockRest2 today q

def rangeBlockStage (today : PyDateTime) (q : Str) : Option DateInfo :=
  match searchA pRange1 q with
  | some g =>
    match rangeFourHandler today "일부터 ".data g with
    | some r => some r
    | none => rangeBlockRest1 today q
  | none => rangeBlockRest1 today q

/-- `re.search` keeping also the matched text `match.group(0)` (the prefix
of the winning position that the pattern consumed). -/
def searchM {α : Type} (m : Str → Option (α × Str)) : Str → Option (α × Str)
  | [] => match m [] with
    | some (g, _) => some (g, [])
    | none => none
  | c :: t => match m (c :: t) with
    | some (g, rem) => some (g, (c :: t).take ((c :: t).length - rem.length))
    | none => searchM m t

/-- Relative-date checks (lines 108-183), in source order; `none` when no
relative keyword occurs. -/
def relativeStage (today : PyDateTime) (q : Str) : Option DateInfo :=
  if strContains q "오늘".data then
    some { type := some "relative".data,
           start_date := some (atStartOfDay today),
           end_date := some (atEndOfDay today),
           original := some "오늘".data }
  else if strContains q "어제".data then
    let yesterday := addDays today (-1)
    some { type := some "relative".data,
           start_date := some (atStartOfDay yesterday),
           end_date := some (atEndOfDay yesterday),
           original := some "어제".data }
  else if strContains q "이번주".data || strContains q "이번 주".data then
    let startOfWeek := addDays today (-(pyWeekday today : Int))
    let endOfWeek := addDays startOfWeek 6
    some { type := some "relative".data,
           start_date := some (atStartOfDay startOfWeek),
           end_date := some (atEndOfDay endOfWeek),
           original := some "이번주".data }
  else if strContains q "지난주".data || strContains q "지난 주".data ||
      strContains q "저번주".data || strContains q "저번 주".data then
    let startOfLastWeek := addDays today (-((pyWeekday today : Int) + 7))
    let endOfLastWeek := addDays startOfLastWeek 6
    some { type := some "relative".data,
           start_date := some (atStartOfDay startOfLastWeek),
           end_date := some (atEndOfDay endOfLastWeek),
           original := some "지난주".data }
  else if strContains q "이번달".data || strContains q "이번 달".data then
    let startOfMonth := atStartOfDay { today with day := 1 }
    let endOfMonth :=
      if today.month == 12 then
        atEndOfDay { today with month := 12, day := 31 }
      else
        atEndOfDay (addDays { today with month := today.month + 1, day := 1 }
          (-1))
    some { type := some "relative".data, start_date := some startOfMonth,
           end_date := some endOfMonth, original := some "이번달".data }
  else if strContains q "지난달".data || strContains q "지난 달".data ||
      strContains q "저번달".data || strContains q "저번 달".data then
    let lastMonth :=
      if today.month == 1 then
        { today with year := today.year - 1, month := 12, day := 1 }
      else
        { today with month := today.month - 1, day := 1 }
    let startOfLastMonth := atStartOfDay lastMonth
    let endOfLastMonth := atEndOfDay (addDays { today with day := 1 } (-1))
    some { type := some "relative".data,
           start_date := some startOfLastMonth,
           end_date := some endOfLastMonth, original := some "지난달".data }
  else if strContains q "최근".data || strContains q "요즘".data then
    let lastWeek := addDays today (-14)
    some { type := some "relative".data,
           start_date := some (atStartOfDay lastWeek),
           end_date := some (atEndOfDay today),
           original := some "최근".data, recent_flag := true }
  else none

/-- Whole-month mention (lines 234-260): `(\d{1,2})월` present but no
`\d{1,2}월\s*\d{1,2}일`; an invalid month makes the `datetime` construction
raise and the stage falls through. -/
def monthOnlyStage (today : PyDateTime) (q : Str) : Option DateInfo :=
  match searchA pMonthOnly q with
  | none => none
  | some m =>
    if strContains q "월".data && (searchA pMonthDay q).isNone then
      match mk_datetime today.year m 1 0 0 0 with
      | none => none
      | some s =>
        let endOpt :=
          if m == 12 then mk_datetime today.year 12 31 23 59 59
          else
            match mk_datetime today.year (m + 1) 1 0 0 0 with
            | none => none
            | some nm => some (atEndOfDay (addDays nm (-1)))
        match endOpt with
        | none => none
        | some e =>
          some { type := some "range".data, start_date := some s,
                 end_date := some e,
                 original := some (digitsOfNat m ++ "월".data) }
    else none

/-- Exact single dates (lines 262-285): `(\d{4})년 (\d{1,2})월 (\d{1,2})일`
then `(\d{1,2})월 (\d{1,2})일`, each skipped on `ValueError`; `original` is
the matched text. -/
def exactDateStageMd (today : PyDateTime) (q : Str) : Option DateInfo :=
  match searchM pMonthDay q with
  | some ((m, d), txt) =>
    match mk_datetime today.year m d 0 0 0 with
    | some t =>
      some { type := some "absolute".data,
             start_date := some (atStartOfDay t),
             end_date := some (atEndOfDay t), original := some txt }
    | none => none
  | none => none

def exactDateStage (today : PyDateTime) (q : Str) : Option DateInfo :=
  match searchM pYmd q with
  | some ((y, m, d), txt) =>
    match mk_datetime (y : Int) m d 0 0 0 with
    | some t =>
      some { type := some "absolute".data,
             start_date := some (atStartOfDay t),
             end_date := some (atEndOfDay t), original := some txt }
    | none => exactDateStageMd today q
  | none => exactDateStageMd today q

/-- Month-to-month ranges (lines 287-314): `(\d{1,2})월\s*~\s*(\d{1,2})월`
then `(\d{1,2})월부터\s*(\d{1,2})월까지`, each skipped on `ValueError`;
`original` is the matched text. -/
def monthRangeHandler (today : PyDateTime) (g : Nat × Nat) (txt : Str) :
    Option DateInfo :=
  match g with
  | (m1, m2) =>
    match mk_datetime today.year m1 1 0 0 0 with
    | none => none
    | some s =>
      let endOpt :=
        if m2 == 12 then mk_datetime today.year 12 31 23 59 59
        else
          match mk_datetime today.year (m2 + 1) 1 0 0 0 with
          | none => none
          | some nm => some (atEndOfDay (addDays nm (-1)))
      match endOpt with
      | none => none
      | some e =>
        some { type := some "range".data, start_date := some s,
               end_date := some e, original := some txt }

def monthRangeStageButeo (today : PyDateTime) (q : Str) : Option DateInfo :=
  match searchM pMonthButeoMonth q with
  | some (g, txt) => monthRangeHandler today g txt
  | none => none

def monthRangeStage (today : PyDateTime) (q : Str) : Option DateInfo :=
  match searchM pMonthTildeMonth q with
  | some (g, txt) =>
    match monthRangeHandler today g txt with
    | some r => some r
    | none => monthRangeStageButeo today q
  | none => monthRangeStageButeo today q

/-- The pipeline from the month-only pattern on (lines 234-317). -/
def parseDateTail (today : PyDateTime) (q : Str) : DateInfo :=
  match monthOnlyStage today q with
  | some r => r
  | none =>
    match exactDateStage today q with
    | some r => r
    | none =>
      match monthRangeStage today q with
      | some r => r
      | none => emptyDateInfo

/-- `parse_date_from_query` (lines 39-317, with `today = datetime.now()`
passed explicitly): the first range-pattern block, the relative-date
checks, the verbatim second copy of the range-pattern block, the
whole-month pattern, the exact-date patterns, the month-to-month patterns,
and finally the all-`None` dict. -/
def parse_date_from_query (today : PyDateTime) (q : Str) : DateInfo :=
  match rangeBlockStage today q with
  | some r => r
  | none =>
    match relativeStage today q with
    | some r => r
    | none =>
      match rangeBlockStage today q with
      | some r => r
      | none => parseDateTail today q

/-- The same pipeline entered at the second range pattern: what the source
runs after the first range pattern has been skipped. -/
def parse_date_from_pat2 (today : PyDateTime) (q : Str) : DateInfo :=
  match rangeBlockRest1 today q with
  | some r => r
  | none =>
    match relativeStage today q with
    | some r => r
    | none =>
      match rangeBlockStage today q with
      | some r => r
      | none => parseDateTail today q

-- ============================================================
-- parse_status_from_query (search.py lines 323-393)
-- ============================================================

/-- `re.search(suf + r'\??$', s)`: the string ends with the suffix,
optionally followed by one `?`. -/
def endsWithOptQ (s suf : Str) : Bool :=
  endsWithS s suf || endsWithS s (suf ++ "?".data)

/-- `re.search(pat + r'\s', s)`: the pattern occurs somewhere followed by a
whitespace character. -/
def containsFollowedByWs (pat : Str) : Str → Bool
  | [] => false
  | c :: t =>
    (pat.isPrefixOf (c :: t) &&
      (match ((c :: t).drop pat.length).head? with
       | some w => w.isWhitespace
       | none => false)) ||
    containsFollowedByWs pat t

/-- `re.search(a + r'\s*' + b + r'\??$', s)`: strip one optional trailing
`?`, then the string must end with `b`, preceded by whitespace only, then
`a`.  (`\s*` sits between two non-whitespace literals, so the greedy scan
is equivalent.) -/
def endsWithGapOptQ (s a b : Str) : Bool :=
  let s1 := if endsWithS s "?".data then s.dropLast else s
  if endsWithS s1 b then
    endsWithS (((s1.take (s1.length - b.length)).reverse.dropWhile
      Char.isWhitespace).reverse) a
  else false

/-- `re.search(a + r'\s*' + b, s)` anywhere in the string. -/
def containsGap (a b : Str) : Str → Bool
  | [] => a.isPrefixOf [] && b.isPrefixOf (([] : Str).dropWhile Char.isWhitespace)
  | c :: t =>
    (a.isPrefixOf (c :: t) &&
      b.isPrefixOf (((c :: t).drop a.length).dropWhile Char.isWhitespace)) ||
    containsGap a b t

/-- The twelve `past_tense_patterns` (lines 337-350). -/
def past_tense_hit (s : Str) : Bool :=
  endsWithOptQ s "했어".data || endsWithOptQ s "있었어".data ||
  endsWithOptQ s "였어".data || endsWithOptQ s "더라".data ||
  endsWithOptQ s "했나".data || endsWithOptQ s "있었나".data ||
  endsWithOptQ s "였나".data || endsWithOptQ s "됐어".data ||
  endsWithOptQ s "했는지".data || endsWithOptQ s "있었는지".data ||
  containsFollowedByWs "였던".data s || containsFollowedByWs "했던".data s

/-- The six `future_tense_patterns` (lines 358-365). -/
def future_tense_hit (s : Str) : Bool :=
  endsWithGapOptQ s "할".data "거야".data ||
  endsWithOptQ s "할까".data || endsWithOptQ s "있을까".data ||
  endsWithOptQ s "될까".data ||
  containsGap "할".data "예정".data s ||
  containsGap "있을".data "예정".data s

def scheduled_keywords : List Str :=
  ["예정".data, "예정된".data, "앞으로".data, "다가오는".data, "예약".data,
   "예약된".data, "미래".data, "다음".data]

def completed_keywords : List Str :=
  ["완료".data, "완료된".data, "끝난".data, "지난".data, "과거".data,
   "했던".data, "했었던".data]

def recording_keywords : List Str :=
  ["진행중".data, "진행 중".data, "현재".data, "녹화중".data,
   "녹화 중".data, "진행되는".data, "하는 중".data]

def cancelled_keywords : List Str :=
  ["취소".data, "취소된".data, "무산".data, "무산된".data]

/-- `parse_status_from_query` (lines 323-393), translated branch for
branch. -/
def parse_status_from_query (q : Str) : Option Str :=
  let ql := lowerStr q
  if past_tense_hit ql then some "COMPLETED".data
  else if future_tense_hit ql then some "SCHEDULED".data
  else if strContainsAny ql scheduled_keywords then some "SCHEDULED".data
  else if strContainsAny ql completed_keywords then some "COMPLETED".data
  else if strContainsAny ql recording_keywords then some "RECORDING".data
  else if strContainsAny ql cancelled_keywords then some "CANCELLED".data
  else none

/-- The Lifecycle State Classifier as the claim words it: an ordered rule
list - past tense, future tense, then the explicit keyword sets in the
fixed order SCHEDULED, COMPLETED, RECORDING, CANCELLED - whose first hit
wins, `none` when nothing fires. -/
def status_rule_list : List (Str × (Str → Bool)) :=
  [("COMPLETED".data, past_tense_hit),
   ("SCHEDULED".data, future_tense_hit),
   ("SCHEDULED".data, fun s => strContainsAny s scheduled_keywords),
   ("COMPLETED".data, fun s => strContainsAny s completed_keywords),
   ("RECORDING".data, fun s => strContainsAny s recording_keywords),
   ("CANCELLED".data, fun s => strContainsAny s cancelled_keywords)]

def parse_status_claim (q : Str) : Option Str :=
  (status_rule_list.find? (fun r => r.2 (lowerStr q))).map (fun r => r.1)

-- ============================================================
-- Meeting rows and the persona ranker (search.py lines 1554-1662)
-- ============================================================

/-- A fetched meeting row (`SELECT m.*, mr.summary, ...` joined with
`meeting_result` and `participant`).  `description`/`summary` are nullable
(`LEFT JOIN`); `relevance_score`, `keyword_score` and `time_distance` are
the transient keys the ranking code attaches to the in-memory dict
(`none` = key absent; for `time_distance` the inner `none` is the
`float('inf')` given to rows without `scheduled_at`). -/
structure MeetingRow where
  id : Nat
  title : Str
  description : Option Str
  summary : Option Str
  scheduled_at : Option PyDateTime
  status : Str
  participants : List Str := []
  relevance_score : Option Nat := none
  keyword_score : Option Nat := none
  time_distance : Option (Option Nat) := none
deriving DecidableEq, Repr

def dtToSeconds (dt : PyDateTime) : Int :=
  toOrdinal dt.year dt.month dt.day * 86400 + (dt.hour : Int) * 3600 +
    (dt.minute : Int) * 60 + (dt.second : Int)

/-- The fixed persona vocabularies (`job_keywords`, lines 1560-1582). -/
def job_keywords : List (Str × List Str) :=
  [("PROJECT_MANAGER".data,
    ["기획".data, "전략".data, "로드맵".data, "목표".data, "계획".data,
     "일정".data, "마일스톤".data, "프로젝트".data, "pm".data, "po".data,
     "스프린트".data, "스케줄".data, "리소스".data]),
   ("FRONTEND_DEVELOPER".data,
    ["프론트엔드".data, "프론트".data, "ui".data, "ux".data, "react".data,
     "vue".data, "화면".data, "인터페이스".data, "디자인".data,
     "frontend".data, "fe".data, "컴포넌트".data, "반응형".data]),
   ("BACKEND_DEVELOPER".data,
    ["백엔드".data, "backend".data, "api".data, "서버".data,
     "데이터베이스".data, "spring".data, "node".data, "개발팀".data,
     "be".data, "fastapi".data, "rest".data, "배포".data, "인프라".data,
     "성능".data, "아키텍처".data]),
   ("DATABASE_ADMINISTRATOR".data,
    ["데이터베이스".data, "database".data, "db".data, "sql".data,
     "쿼리".data, "최적화".data, "인덱스".data, "mysql".data,
     "데이터".data, "dba".data, "스키마".data, "마이그레이션".data]),
   ("SECURITY_DEVELOPER".data,
    ["보안".data, "security".data, "취약점".data, "암호화".data,
     "인증".data, "권한".data, "ssl".data, "방화벽".data, "점검".data,
     "보안점검".data, "취약점점검".data])]

/-- `calculate_relevance` (lines 1554-1599): +10 per persona keyword in
the title, +5 in the (non-empty) summary, +3 in the (non-empty)
description, case-insensitive substring matching. -/
def calculate_relevance (m : MeetingRow) (user_job : Str) : Nat :=
  let kws := (job_keywords.lookup user_job).getD []
  let title := lowerStr m.title
  let description := lowerStr (m.description.getD [])
  let summary := lowerStr (m.summary.getD [])
  kws.foldl (fun score kw =>
    let kwl := lowerStr kw
    let score := if strContains title kwl then score + 10 else score
    let score :=
      if summary ≠ [] ∧ strContains summary kwl then score + 5 else score
    if description ≠ [] ∧ strContains description kwl then score + 3
    else score) 0

/-- Step 1 of `search_with_persona` (lines 1607-1619): attach
`relevance_score` and `time_distance` to every row. -/
def personaDecorate (now : PyDateTime) (user_job : Str) (m : MeetingRow) :
    MeetingRow :=
  { m with relevance_score := some (calculate_relevance m user_job),
           time_distance := some (match m.scheduled_at with
             | some dt => some (dtToSeconds dt - dtToSeconds now).natAbs
             | none => none) }

/-- `m['relevance_score']` after decoration (always present there). -/
def scoreOf (m : MeetingRow) : Nat := m.relevance_score.getD 0

/-- `scores = sorted([...], reverse=True)` (line 1631). -/
def persona_scores_desc (now : PyDateTime) (user_job : Str)
    (meetings : List MeetingRow) : List Nat :=
  List.insertionSort (fun a b : Nat => b ≤ a)
    ((meetings.map (personaDecorate now user_job)).map scoreOf)

/-- `threshold_index = int(len(scores) * 0.3)` (line 1632).  `0.3` is a
binary double a hair below 3/10; for the list lengths arising here the
truncated float product equals `3 * n / 10` (they can differ only for
astronomically long lists). -/
def persona_threshold_index (n : Nat) : Nat := 3 * n / 10

/-- `threshold = scores[threshold_index] if threshold_index < len(scores)
else 0` (line 1633). -/
def persona_threshold (now : PyDateTime) (user_job : Str)
    (meetings : List MeetingRow) : Nat :=
  let scores := persona_scores_desc now user_job meetings
  let ti := persona_threshold_index meetings.length
  if h : ti < scores.length then scores.get ⟨ti, h⟩ else 0

/-- `high_relevance = [m for m in meetings if m['relevance_score'] >=
threshold]` (line 1635). -/
def persona_high (now : PyDateTime) (user_job : Str)
    (meetings : List MeetingRow) : List MeetingRow :=
  let threshold := persona_threshold now user_job meetings
  (meetings.map (personaDecorate now user_job)).filter
    (fun m => decide (threshold ≤ scoreOf m))

/-- `low_relevance = [m for m in meetings if m['relevance_score'] <
threshold]` (line 1636). -/
def persona_low (now : PyDateTime) (user_job : Str)
    (meetings : List MeetingRow) : List MeetingRow :=
  let threshold := persona_threshold now user_job meetings
  (meetings.map (personaDecorate now user_job)).filter
    (fun m => decide (scoreOf m < threshold))

/-- Sort key for `sorted(high_relevance, key=lambda x:
x['time_distance'])`: `float('inf')` (inner `none`) sorts last. -/
def tdKey (m : MeetingRow) : Nat × Nat :=
  match m.time_distance with
  | some (some d) => (0, d)
  | _ => (1, 0)

def pairLe (x y : Nat × Nat) : Prop :=
  x.1 < y.1 ∨ (x.1 = y.1 ∧ x.2 ≤ y.2)

instance : DecidableRel pairLe := fun x y => by
  unfold pairLe; infer_instance

def tdRel (a b : MeetingRow) : Prop := pairLe (tdKey a) (tdKey b)

instance : DecidableRel tdRel := fun a b => by
  unfold tdRel; infer_instance

def scoreDescRel (a b : MeetingRow) : Prop := scoreOf b ≤ scoreOf a

instance : DecidableRel scoreDescRel := fun a b => by
  unfold scoreDescRel; infer_instance

/-- `search_with_persona` (lines 1601-1662): decorate, split at the
threshold, sort the high tier by temporal distance and the low tier by
descending score (Python `sorted` is stable; `List.insertionSort` over a
total preorder is the same stable sort), concatenate, and delete the
transient `time_distance` key from every returned row. -/
def search_with_persona (now : PyDateTime) (user_job : Str)
    (meetings : List MeetingRow) : List MeetingRow :=
  let highSorted := List.insertionSort tdRel
    (persona_high now user_job meetings)
  let lowSorted := List.insertionSort scoreDescRel
    (persona_low now user_job meetings)
  (highSorted ++ lowSorted).map (fun m => { m with time_distance := none })

-- ============================================================
-- Collapse-to-single (search.py lines 1116-1192)
-- ============================================================

/-- `re.sub(r'회의|미팅', '', text)`: left-to-right, non-overlapping. -/
def removeMeetingSub : Str → Str
  | [] => []
  | [c] => [c]
  | c1 :: c2 :: t =>
    if c1 = '회' ∧ c2 = '의' then removeMeetingSub t
    else if c1 = '미' ∧ c2 = '팅' then removeMeetingSub t
    else c1 :: removeMeetingSub (c2 :: t)

/-- `remove_meeting_word` (lines 1161-1162): strip the words for
"meeting", then whitespace. -/
def remove_meeting_word (s : Str) : Str := stripWs (removeMeetingSub s)

/-- The similarity rows (lines 1164-1175).  `difflib.SequenceMatcher(None,
a, b).ratio()` is an external library routine, abstracted as a parameter
`sim` into `[0, 1] ⊆ ℚ`; the collapse logic under verification is
independent of how the ratio is computed. -/
def similarity_rows (sim : Str → Str → ℚ) (q : Str)
    (ms : List MeetingRow) : List (MeetingRow × ℚ) :=
  let qc := remove_meeting_word (stripWs (lowerStr q))
  ms.map (fun m => (m, sim qc (remove_meeting_word (stripWs (lowerStr m.title)))))

/-- `max(similarities, key=lambda x: x[1])`: Python keeps the first of
several maxima (it replaces the accumulator only on strictly greater
keys). -/
def maxBySecond (rows : List (MeetingRow × ℚ)) : Option (MeetingRow × ℚ) :=
  match rows with
  | [] => none
  | r :: rs => some (rs.foldl (fun acc x => if acc.2 < x.2 then x else acc) r)

def simDescRel (a b : MeetingRow × ℚ) : Prop := b.2 ≤ a.2

instance : DecidableRel simDescRel := fun a b => by
  unfold simDescRel; infer_instance

/-- `sorted(similarities, key=lambda x: x[1], reverse=True)[1][1] if
len(similarities) > 1 else 0` (line 1183). -/
def second_best_ratio (rows : List (MeetingRow × ℚ)) : ℚ :=
  if 1 < rows.length then
    (((List.insertionSort simDescRel rows).get? 1).map (fun r => r.2)).getD 0
  else 0

/-- The collapse-to-single step (lines 1156-1192): with more than one
candidate, if the best similarity is at least 0.7 and beats the runner-up
by at least 0.2, keep only the best row, otherwise keep the set. -/
def collapse_to_single (sim : Str → Str → ℚ) (q : Str)
    (ms : List MeetingRow) : List MeetingRow :=
  if 1 < ms.length then
    let sims := similarity_rows sim q ms
    match maxBySecond sims with
    | none => ms
    | some best =>
      if (7 : ℚ)/10 ≤ best.2 then
        if (2 : ℚ)/10 ≤ best.2 - second_best_ratio sims then [best.1]
        else ms
      else ms
  else ms

-- ============================================================
-- Relaxation-ladder rung filters (search.py lines 1008-1322)
-- ============================================================

/-- The query signals rung filters are built from. -/
structure RungCfg where
  user_name : Option Str
  keywords : List Str
  date_start : Option PyDateTime
  date_end : Option PyDateTime
  status : Option Str
  selected_meeting_id : Option Nat
  now : PyDateTime
deriving Repr

/-- `column LIKE '%kw%'` under MySQL's default case-insensitive
collation. -/
def likeMatch (field kw : Str) : Bool :=
  strContains (lowerStr field) (lowerStr kw)

/-- One keyword group `(m.title LIKE %s OR m.description LIKE %s OR
mr.summary LIKE %s)`; NULL columns never match. -/
def keywordCond (m : MeetingRow) (kw : Str) : Bool :=
  likeMatch m.title kw ||
  (match m.description with | some d => likeMatch d kw | none => false) ||
  (match m.summary with | some s => likeMatch s kw | none => false)

/-- The `INNER JOIN participant` plus optional `p.name = %s` filter
(after `GROUP BY m.id`): the row needs a participant, and the requester
among them when a requester name was resolved. -/
def requesterOK (cfg : RungCfg) (m : MeetingRow) : Bool :=
  match cfg.user_name with
  | some n => m.participants.contains n
  | none => !m.participants.isEmpty

/-- `scheduled_at >= start AND scheduled_at <= end` for whichever bound is
present; SQL comparisons against NULL are not satisfied. -/
def dateOK (cfg : RungCfg) (m : MeetingRow) : Bool :=
  (match cfg.date_start with
   | some s => (match m.scheduled_at with
     | some t => dtLe s t
     | none => false)
   | none => true) &&
  (match cfg.date_end with
   | some e => (match m.scheduled_at with
     | some t => dtLe t e
     | none => false)
   | none => true)

/-- `is_today_query` (lines 1044-1058): both bounds collapse to today's
date. -/
def is_today_query (cfg : RungCfg) : Bool :=
  match cfg.date_start, cfg.date_end with
  | some s, some e => sameDate s e && sameDate e cfg.now
  | _, _ => false

/-- The lifecycle-state condition of rung 0 (lines 1072-1091): suppressed
on a today query; SCHEDULED additionally demands `scheduled_at` from
today on, COMPLETED before today; other states carry no date tie. -/
def statusOK (cfg : RungCfg) (m : MeetingRow) : Bool :=
  match cfg.status with
  | none => true
  | some st =>
    if is_today_query cfg then true
    else
      let today_dt := atStartOfDay cfg.now
      if st == "SCHEDULED".data then
        m.status == st && (match m.scheduled_at with
          | some t => dtLe today_dt t
          | none => false)
      else if st == "COMPLETED".data then
        m.status == st && (match m.scheduled_at with
          | some t => dtLt t today_dt
          | none => false)
      else m.status == st

def selectedOK (cfg : RungCfg) (m : MeetingRow) : Bool :=
  match cfg.selected_meeting_id with
  | some i => m.id == i
  | none => true

/-- The keyword block of rung 0 (lines 1025-1039): no condition without
keywords, AND across groups for several keywords, OR-of-columns for one. -/
def keywordsRung0 (cfg : RungCfg) (m : MeetingRow) : Bool :=
  match cfg.keywords with
  | [] => true
  | ks => if 1 < ks.length then ks.all (keywordCond m) else ks.any (keywordCond m)

/-- The keyword block of rung 1 (lines 1225-1230): always OR-joined. -/
def keywordsRung1 (cfg : RungCfg) (m : MeetingRow) : Bool :=
  match cfg.keywords with
  | [] => true
  | ks => ks.any (keywordCond m)

/-- The full rung-0 (primary) row filter (lines 1011-1099). -/
def rung0_row_pred (cfg : RungCfg) (m : MeetingRow) : Bool :=
  requesterOK cfg m && keywordsRung0 cfg m && dateOK cfg m &&
  statusOK cfg m && selectedOK cfg m

/-- The rung-1 (state-dropped) row filter actually built by the source
(lines 1212-1242): requester, OR-joined keywords, date bounds - no
lifecycle state, no context-meeting filter. -/
def rung1_row_pred (cfg : RungCfg) (m : MeetingRow) : Bool :=
  requesterOK cfg m && keywordsRung1 cfg m && dateOK cfg m

/-- Rung 1 as claim C2 words it: exactly the rung-0 filters with only the
lifecycle-state filter removed. -/
def rung1_claim_pred (cfg : RungCfg) (m : MeetingRow) : Bool :=
  rung0_row_pred { cfg with status := none } m

/-- First-seen-order deduplication: `list(dict.fromkeys(...))`, and the
deterministic model used for `list(set(...))` (the set's contents are
determined; only Python's iteration order is not). -/
def pyDedupAux {α : Type} [DecidableEq α] (seen : List α) :
    List α → List α
  | [] => []
  | x :: xs =>
    if x ∈ seen then pyDedupAux seen xs
    else x :: pyDedupAux (x :: seen) xs

def pyDedup {α : Type} [DecidableEq α] (l : List α) : List α :=
  pyDedupAux [] l

/-- Python `sep.join(parts)`. -/
def joinWith (sep : Str) : List Str → Str
  | [] => []
  | [x] => x
  | x :: y :: xs => x ++ sep ++ joinWith sep (y :: xs)

/-- `status_kr.get(s, s)` with
`{'COMPLETED': '완료된', 'SCHEDULED': '예정된', 'RECORDING': '진행중'}`. -/
def status_kr_get (s : Str) : Str :=
  if s == "COMPLETED".data then "완료된".data
  else if s == "SCHEDULED".data then "예정된".data
  else if s == "RECORDING".data then "진행중".data
  else s

/-- Rung-1 single-row success message with a state filter present (lines
1276-1287); `detail` is the external single-meeting formatter's output. -/
def rung1_single_message (status : Str) (row_status : Str) (detail : Str) :
    Str :=
  "❌ ".data ++ status_kr_get status ++ " 회의는 없어요.\n\n하지만 ".data ++
  status_kr_get row_status ++ " 회의가 있습니다! 📌\n\n".data ++ detail ++
  "\n\n이 회의를 확인해보시겠어요?".data

/-- `statuses = list(set(...))` minus the requested state, rendered
`'/'.join(...)` or the generic `다른` (lines 1297-1302). -/
def rung1_multi_found_text (status : Str) (fb : List MeetingRow) : Str :=
  let statuses := pyDedup (fb.map (fun m => m.status))
  let remaining := statuses.filter (fun s => s ≠ status)
  let names := remaining.map status_kr_get
  if names.isEmpty then "다른".data else joinWith "/".data names

/-- Rung-1 multi-row success message with a state filter present (lines
1307-1314); `detail` is the external short-list formatter's output. -/
def rung1_multi_message (status : Str) (fb : List MeetingRow)
    (detail : Str) : Str :=
  "❌ ".data ++ status_kr_get status ++ " 회의는 없어요.\n\n하지만 ".data ++
  rung1_multi_found_text status fb ++ " 회의들이 있습니다! 📋\n\n".data ++
  detail

/-- The rung-1 success response for a present state filter (lines
1251-1322): single rows get the detail message, several rows the list
message. -/
def rung1_success_message (status : Str) (fb : List MeetingRow)
    (detail : Str) : Str :=
  match fb with
  | [f] => rung1_single_message status f.status detail
  | _ => rung1_multi_message status fb detail

-- ============================================================
-- Maximal character runs (re.findall over a character class, str.split)
-- ============================================================

/-- Auxiliary for `runsBy`: returns the runs of `p`-characters of the
list together with whether the list starts with a `p`-character. -/
def runsByAux (p : Char → Bool) : Str → List Str × Bool
  | [] => ([], false)
  | c :: cs =>
    let r := runsByAux p cs
    if p c then
      (match r.2, r.1 with
       | true, run :: rest => (c :: run) :: rest
       | _, rs => [c] :: rs, true)
    else (r.1, false)

/-- Maximal runs of characters satisfying `p`, in order:
`re.findall('[class]+', s)`. -/
def runsBy (p : Char → Bool) (s : Str) : List Str := (runsByAux p s).1

/-- Python `str.split()`: maximal runs of non-whitespace. -/
def splitWs (s : Str) : List Str := runsBy (fun c => !c.isWhitespace) s

-- ============================================================
-- Task / Assignee Resolver (search.py lines 1864-2321, 2509-2573)
-- ============================================================

structure TaskRow where
  id : Nat
  user_id : Nat
  meeting_id : Nat
  title : Str
  due_date : Option Str
  status : Str
  assignee_name : Str := []
deriving DecidableEq, Repr

/-- An `action_item` row joined (LEFT) through `meeting_result` to its
meeting and assignee user. -/
structure ActionItemRow where
  id : Nat
  task : Str
  meeting_id : Option Nat
  meeting_host : Option Nat
  assignee_user_id : Option Nat
  due_date : Option Str
  is_completed : Bool
  source : Str := []
deriving DecidableEq, Repr

structure TaskDB where
  tasks : List TaskRow
  action_items : List ActionItemRow
  users : List (Nat × Str)
deriving Repr

/-- The merged task/action-item record shape (`none` models a dict key a
row family does not carry): task rows keep their `user_id`, action-item
rows do not have one. -/
structure TRec where
  title : Str
  user_id : Option Nat
  assignee_name : Option Str
  due_date : Option Str
  status : Str
  meeting_id : Option Nat
  source_table : Str
deriving DecidableEq, Repr

/-- Word characters for Python's `\w` on the inputs at hand (ASCII
alphanumerics, underscore and Korean syllables). -/
def isWordChar (c : Char) : Bool := isAsciiAlnum c || c == '_' || isHangul c

/-- `re.sub(r'에서|에게|한테|부터|까지', '', tok)` (line 1905): five
two-character alternatives removed left-to-right, non-overlapping. -/
def removeJosaSub : Str → Str
  | [] => []
  | [c] => [c]
  | c1 :: c2 :: t =>
    if (c1 = '에' ∧ c2 = '서') ∨ (c1 = '에' ∧ c2 = '게') ∨
       (c1 = '한' ∧ c2 = '테') ∨ (c1 = '부' ∧ c2 = '터') ∨
       (c1 = '까' ∧ c2 = '지') then removeJosaSub t
    else c1 :: removeJosaSub (c2 :: t)

def pronoun_tokens : List Str := ["저".data, "그".data, "이".data, "해당".data]

/-- The demonstrative-plus-meeting-word scan of `has_meeting_pronoun`
(lines 1902-1909): a pronoun token immediately followed by a token whose
particle-stripped Korean-only form is at least 0.5 similar to `회의`
(`sim` abstracts `difflib.SequenceMatcher(...).ratio()`). -/
def hasPronounPair (sim : Str → Str → ℚ) : List Str → Bool
  | t1 :: t2 :: rest =>
    (decide (t1 ∈ pronoun_tokens) &&
      decide ((1 : ℚ)/2 ≤ sim ((removeJosaSub t2).filter isHangul) "회의".data)) ||
    hasPronounPair sim (t2 :: rest)
  | _ => false

/-- `has_meeting_pronoun` (lines 1896-1913). -/
def has_meeting_pronoun (sim : Str → Str → ℚ) (q : Str) : Bool :=
  let cleaned := q.filter (fun c => isWordChar c || c.isWhitespace)
  hasPronounPair sim (splitWs cleaned) ||
  strContains q "거기".data || strContains q "여기".data

/-- The first other user's name occurring verbatim in the query (lines
1918-1927; the loop breaks at the first hit). -/
def findOtherName (q : Str) (otherNames : List Str) : Option Str :=
  otherNames.find? (fun n => strContains q n)

/-- Lines 1918-1927: a detected third-party name discards the established
context meeting unless a meeting back-reference accompanies it. -/
def effectiveMeetingId (sim : Str → Str → ℚ) (q : Str)
    (otherNames : List Str) (mid : Option Nat) : Option Nat :=
  match findOtherName q otherNames with
  | some _ => if has_meeting_pronoun sim q then mid else none
  | none => mid

def my_task_keywords : List Str :=
  ["내가".data, "나의".data, "내 할일".data, "내 할 일".data, "나는?".data,
   "나는".data, "내꺼는?".data, "내꺼는".data, "내가?".data, "내가".data,
   "해야 될".data, "해야될".data, "해야 되는".data, "해야되는".data,
   "남은".data, "미완료".data, "할일".data, "할 일".data, "뭐야".data,
   "뭐있".data, "뭐 있".data]

def suspect_patterns : List Str :=
  ["다른".data, "다름".data, "딴".data, "사람".data, "담당".data,
   "팀원".data, "멤버".data, "누가".data, "아무".data, "모두".data,
   "전체".data, "나머지".data, "누구".data, "그외".data, "그 외".data,
   "다른이".data, "다른 이".data, "다른애".data, "다른 애".data]

inductive TaskBranch where
  | contextPrompt
  | completedTasks
  | myTasksMeeting
  | myTasksGlobal
  | otherPeople
  | meetingOthers
  | meetingAll
  | namedAssignee
deriving DecidableEq, Repr

/-- Which branch of `search_tasks` (lines 1893-2315) handles the query:
the mutually exclusive conditions in their source order. -/
def search_tasks_branch (sim : Str → Str → ℚ) (q : Str)
    (otherNames : List Str) (mid0 : Option Nat) : TaskBranch :=
  let ql := lowerStr q
  let mid := effectiveMeetingId sim q otherNames mid0
  let hasGlobal := strContainsAny ql
    ["전체".data, "모든".data, "전부".data, "다른".data, "말고".data]
  if mid.isNone && !hasGlobal && strContainsAny ql
      ["저 회의".data, "그 회의".data, "이 회의".data, "거기".data] then
    .contextPrompt
  else if strContainsAny ql ["이미".data, "완료".data, "끝난".data,
      "다 한".data, "한 거".data, "한 것".data] then
    .completedTasks
  else if strContainsAny ql my_task_keywords ||
      (startsWithS ql "아니".data && strContainsAny ql
        ["할일".data, "할 일".data, "task".data]) then
    (match mid with
     | some _ =>
       if strContainsAny ql ["전체".data, "모든".data, "다".data,
           "전부".data] then .myTasksGlobal
       else .myTasksMeeting
     | none => .myTasksGlobal)
  else if strContainsAny ql ["다른 사람".data, "다른사람".data,
      "다른 담당".data, "다른담당".data] ||
      (strContains ql "회의에서".data && strContainsAny ql
        ["다른 사람".data, "다른사람".data, "아무도".data, "전체".data,
         "모두".data]) then
    .otherPeople
  else if mid.isSome && (findOtherName q otherNames).isNone then
    (if strContainsAny ql suspect_patterns then .meetingOthers
     else .meetingAll)
  else .namedAssignee

/-- `status_filter` (lines 1936-1945): `COMPLETED` on completion words,
`TODO` otherwise (both remaining branches assign the `TODO` filter). -/
def task_status_is_completed (ql : Str) : Bool :=
  strContainsAny ql ["완료".data, "끝난".data, "완료한".data]

def task_status_filter_str (completed : Bool) : Str :=
  if completed then "AND t.status = 'COMPLETED'".data
  else "AND t.status = 'TODO'".data

/-- Lexicographic order on strings; on ISO `YYYY-MM-DD` strings this is
exactly the chronological order SQL DATE comparison and Python
`str(date)` comparison give. -/
def strLtB : Str → Str → Bool
  | [], [] => false
  | [], _ :: _ => true
  | _ :: _, [] => false
  | a :: as, b :: bs =>
    if a < b then true else if a = b then strLtB as bs else false

def strLeB (a b : Str) : Bool := strLtB a b || a == b

/-- Sort key of the my-tasks SQL query (lines 2040-2043):
`CASE WHEN t.due_date < CURDATE() THEN 0 ELSE 1 END, t.due_date ASC`,
with the MySQL rules that a NULL comparison satisfies no CASE test and
that ASC places NULLs first. -/
def taskOrderKey (today : Str) (t : TaskRow) : Nat × Nat × Str :=
  match t.due_date with
  | some d => ((if strLtB d today then 0 else 1), 1, d)
  | none => (1, 0, [])

def key3Le (x y : Nat × Nat × Str) : Bool :=
  decide (x.1 < y.1) || (x.1 == y.1 &&
    (decide (x.2.1 < y.2.1) || (x.2.1 == y.2.1 && strLeB x.2.2 y.2.2)))

def myTaskRel (today : Str) (a b : TaskRow) : Prop :=
  key3Le (taskOrderKey today a) (taskOrderKey today b) = true

instance (today : Str) : DecidableRel (myTaskRel today) := fun a b => by
  unfold myTaskRel; infer_instance

/-- The my-tasks branch SQL rows (lines 2036-2047): the requester's tasks
in the context meeting under the status filter, ordered overdue-first
then by due date, capped at 10.  (SQL leaves tie order unspecified; the
stable sort is the determinisation used throughout.) -/
def my_branch_tasks (db : TaskDB) (uid mid : Nat) (completed : Bool)
    (today : Str) : List TaskRow :=
  (List.insertionSort (myTaskRel today)
    (db.tasks.filter (fun t =>
      t.user_id == uid && t.meeting_id == mid &&
      t.status == (if completed then "COMPLETED".data else "TODO".data)))).take 10

/-- `ORDER BY ai.due_date ASC` with MySQL NULLs first. -/
def aiOrderKey (ai : ActionItemRow) : Nat × Str :=
  match ai.due_date with
  | some d => (1, d)
  | none => (0, [])

def key2Le (x y : Nat × Str) : Bool :=
  decide (x.1 < y.1) || (x.1 == y.1 && strLeB x.2 y.2)

def aiRel (a b : ActionItemRow) : Prop :=
  key2Le (aiOrderKey a) (aiOrderKey b) = true

instance : DecidableRel aiRel := fun a b => by
  unfold aiRel; infer_instance

/-- `COALESCE(u.name, '미지정')` over the LEFT JOIN on
`ai.assignee_user_id`. -/
def aiAssigneeName (db : TaskDB) (ai : ActionItemRow) : Str :=
  match ai.assignee_user_id with
  | some uid => (db.users.lookup uid).getD "미지정".data
  | none => "미지정".data

/-- The SELECT of `fetch_action_items` normalised into the merged record
shape (lines 2519-2533). -/
def aiToTRec (db : TaskDB) (ai : ActionItemRow) : TRec :=
  { title := ai.task, user_id := none,
    assignee_name := some (aiAssigneeName db ai), due_date := ai.due_date,
    status := if ai.is_completed then "COMPLETED".data else "TODO".data,
    meeting_id := ai.meeting_id, source_table := "action_item".data }

/-- `fetch_action_items` with a `meeting_id` (lines 2509-2534): the
meeting's action items - no assignee restriction - filtered by the
completion flag the literal `status_filter` string mentions, ordered by
due date, capped at 20. -/
def fetch_action_items_meeting (db : TaskDB) (mid : Nat)
    (statusFilter : Str) : List TRec :=
  let cond : ActionItemRow → Bool :=
    if strContains (upperStr statusFilter) "COMPLETED".data then
      fun ai => ai.is_completed
    else if strContains (upperStr statusFilter) "TODO".data then
      fun ai => !ai.is_completed
    else fun _ => true
  ((List.insertionSort aiRel
    (db.action_items.filter (fun ai =>
      ai.meeting_id == some mid && cond ai))).take 20).map (aiToTRec db)

/-- Tagging `t['source_table'] = 'task'` plus the columns the merged rows
carry (lines 2563-2564). -/
def taskToTRec (t : TaskRow) : TRec :=
  { title := t.title, user_id := some t.user_id,
    assignee_name := some t.assignee_name, due_date := t.due_date,
    status := t.status, meeting_id := some t.meeting_id,
    source_table := "task".data }

/-- `sort_key` of `merge_tasks_and_actions` (lines 2568-2570):
`(0, str(due))` for dated rows, `(1, '')` for dateless ones. -/
def mergeKey (r : TRec) : Nat × Str :=
  match r.due_date with
  | some d => (0, d)
  | none => (1, [])

def mergeRel (a b : TRec) : Prop := key2Le (mergeKey a) (mergeKey b) = true

instance : DecidableRel mergeRel := fun a b => by
  unfold mergeRel; infer_instance

/-- `merge_tasks_and_actions` (lines 2561-2573): tag, concatenate, stable
sort by due date (dateless rows last), truncate to 30. -/
def merge_tasks_and_actions (tasks : List TRec) (ais : List TRec) :
    List TRec :=
  (List.insertionSort mergeRel (tasks ++ ais)).take 30

/-- The record list the my-tasks meeting-scoped branch returns (lines
2036-2050): own tasks joined with the meeting's action items, merged. -/
def search_tasks_my_meeting_records (db : TaskDB) (uid mid : Nat)
    (completed : Bool) (today : Str) : List TRec :=
  merge_tasks_and_actions
    ((my_branch_tasks db uid mid completed today).map taskToTRec)
    (fetch_action_items_meeting db mid (task_status_filter_str completed))

-- ============================================================
-- Orchestrator exception boundaries (search.py lines 696-745,
-- 1544-1548, 1713-1717, 1825-1829, 1876-1880, 2317-2321, 2344-2347,
-- 2426-2430, 2447-2450, 2498-2502)
-- ============================================================

/-- What the pre-try lookup block of `search_meetings_direct` (lines
706-731) resolves: the requester's display name and the participant names
detected in the query. -/
structure PreInfo where
  user_name : Option Str
  participant_names_in_query : List Str
deriving Repr

/-- The lookup result when no `user_id` was given (the block is skipped
and its variables keep their initial empty values). -/
def emptyPre : PreInfo := { user_name := none, participant_names_in_query := [] }

/-- The boundary of `search_meetings_direct`:
* with a `user_id`, the requester-name/participant lookup runs before the
  `try` block, so a store exception there propagates (`preLookup` is its
  outcome);
* a failed connection returns the fixed message with no rows;
* any exception from the body of the `try` (whatever the 800-line body
  does is abstracted as `body`) is converted to the generic failure
  message with no rows. -/
def search_meetings_direct_boundary {E : Type} (userId : Option Nat)
    (preLookup : Except E PreInfo) (conn : Option Unit)
    (body : Unit → PreInfo → Except E (Str × List MeetingRow)) :
    Except E (Str × List MeetingRow) := do
  let pre ← match userId with
    | some _ => preLookup
    | none => pure emptyPre
  match conn with
  | none => pure ("데이터베이스 연결 실패".data, [])
  | some c =>
    match body c pre with
    | .ok r => pure r
    | .error _ => pure ("검색 중 오류가 발생했어요.".data, [])

/-- The boundary of `search_meeting_count` (lines 1713-1717, 1825-1829):
a failed connection or any store exception yields `none`, not a
`(message, records)` pair. -/
def search_meeting_count_boundary {E α : Type} (conn : Option Unit)
    (body : Unit → Except E α) : Option α :=
  match conn with
  | none => none
  | some c =>
    match body c with
    | .ok r => some r
    | .error _ => none

/-- The boundary of `search_tasks` (lines 1876-1880, 2317-2321). -/
def search_tasks_boundary {E : Type} (conn : Option Unit)
    (body : Unit → Except E (Str × List TRec)) : Except E (Str × List TRec) :=
  match conn with
  | none => .ok ("데이터베이스 연결 실패".data, [])
  | some c =>
    match body c with
    | .ok r => .ok r
    | .error _ => .ok ("Task 검색 중 오류가 발생했어요. 😢".data, [])

/-- The boundary of `search_participants` (lines 2344-2347, 2426-2430):
here even the connection acquisition sits inside the `try`. -/
def search_participants_boundary {E α : Type} (conn : Option Unit)
    (body : Unit → Except E (Str × List α)) : Except E (Str × List α) :=
  match conn with
  | none => .ok ("데이터베이스 연결에 실패했어요. 😢".data, [])
  | some c =>
    match body c with
    | .ok r => .ok r
    | .error _ => .ok ("참석자 검색 중 오류가 발생했어요. 😢".data, [])

/-- The boundary of `search_keywords` (lines 2447-2450, 2498-2502); the
generic failure message names the keyword. -/
def search_keywords_boundary {E : Type} (keyword_name : Str)
    (conn : Option Unit)
    (body : Unit → Except E (Str × List MeetingRow)) :
    Except E (Str × List MeetingRow) :=
  match conn with
  | none => .ok ("데이터베이스 연결 실패".data, [])
  | some c =>
    match body c with
    | .ok r => .ok r
    | .error _ => .ok ("'".data ++ keyword_name ++
        "' 키워드 검색 중 오류가 발생했어요. 😢".data, [])

-- ============================================================
-- extract_keywords_from_query (search.py lines 399-536)
-- ============================================================

/-- Python `str.isdigit` on the ASCII-alnum tokens at hand. -/
def pyIsDigit (t : Str) : Bool := !t.isEmpty && t.all Char.isDigit

/-- Python `str.isupper` on the ASCII-alnum tokens at hand: at least one
uppercase letter, no lowercase one (digits are uncased). -/
def pyIsUpper (t : Str) : Bool := t.any Char.isUpper && !(t.any Char.isLower)

/-- Match `rf'{token}\s*[월일년]'` at the head of `s`.  `\s*` is greedy
but followed by a class without whitespace, so the committed scan is
equivalent. -/
def matchTokWsDate (tok : Str) (s : Str) : Bool :=
  tok.isPrefixOf s &&
  (match (s.drop tok.length).dropWhile Char.isWhitespace with
   | c :: _ => c == '월' || c == '일' || c == '년'
   | [] => false)

/-- `re.search(rf'{token}\s*[월일년]', utterance)` (line 412; `token` is
all digits, so it has no regex metacharacters). -/
def searchTokWsDate (tok : Str) : Str → Bool
  | [] => false
  | c :: t => matchTokWsDate tok (c :: t) || searchTokWsDate tok t

/-- The english/number token loop (lines 409-420): date-adjacent pure
numbers are skipped, tokens of length two and more are upper-cased, and
single characters survive only as upper-case acronyms. -/
def english_token_step (utt : Str) (acc : List Str) (token : Str) :
    List Str :=
  if pyIsDigit token && searchTokWsDate token utt then acc
  else if 2 ≤ token.length then acc ++ [upperStr token]
  else if pyIsUpper token then acc ++ [token]
  else acc

def processEnglishTokens (utt : Str) (tokens : List Str) : List Str :=
  tokens.foldl (english_token_step utt) []

/-- The compound split (lines 423-436): a token longer than two characters
ending in `회의` or `관련` is replaced by its base. -/
def splitCompound (token : Str) : Str :=
  if endsWithS token "회의".data && decide (2 < token.length) then
    token.take (token.length - 2)
  else if endsWithS token "관련".data && decide (2 < token.length) then
    token.take (token.length - 2)
  else token

/-- `re.match(r'^(a|...)(x|...)?$', t)`. -/
def matchesAltOptSuffix (alts sufs : List Str) (t : Str) : Bool :=
  alts.any (fun a => t == a || sufs.any (fun x => t == a ++ x))

/-- `re.match(r'^(a|...).*', t)`; a trailing `(x|...)?$` after `.*` is
vacuous (the optional group may match empty and `.*` swallows the rest),
so those patterns also reduce to this prefix test. -/
def matchesAltPrefix (alts : List Str) (t : Str) : Bool :=
  alts.any (fun a => startsWithS t a)

/-- `re.match(r'^(a|...).*(x|...)$', t)`. -/
def matchesPrefixSuffix (alts sufs : List Str) (t : Str) : Bool :=
  alts.any (fun a => startsWithS t a &&
    sufs.any (fun x => endsWithS (t.drop a.length) x))

/-- `re.match(r'.+(x|...)$', t)` (`^` before `.+` changes nothing). -/
def matchesDotPlusSuffix (sufs : List Str) (t : Str) : Bool :=
  sufs.any (fun x => endsWithS t x && decide (x.length < t.length))

/-- `re.match(r'^(a|...)$', t)`. -/
def matchesExact (alts : List Str) (t : Str) : Bool :=
  alts.any (fun a => t == a)

/-- `re.match(r'^(a|...).+(x|...)$', t)`. -/
def matchesPrefixPlusSuffix (alts sufs : List Str) (t : Str) : Bool :=
  alts.any (fun a => startsWithS t a &&
    sufs.any (fun x => endsWithS (t.drop a.length) x &&
      decide (a.length + x.length < t.length)))

/-- The `meaningless_patterns` table (lines 439-517), one matcher per
regex, in source order. -/
def meaningless_matchers : List (Str → Bool) :=
  [ -- r'^(오늘|어제|모레|그제|내일).*(은|는|에|의|도|만)?$'
   matchesAltPrefix ["오늘".data, "어제".data, "모레".data, "그제".data,
     "내일".data],
   -- r'^(이번주|지난주|다음주|저번주).*(은|는|에|의|도|만)?$'
   matchesAltPrefix ["이번주".data, "지난주".data, "다음주".data,
     "저번주".data],
   -- r'^(이번달|지난달|다음달|저번달).*(은|는|에|의|도|만)?$'
   matchesAltPrefix ["이번달".data, "지난달".data, "다음달".data,
     "저번달".data],
   -- r'^(최근|요즘|근래|최근에|요즘에).*(은|는|에|의)?$'
   matchesAltPrefix ["최근".data, "요즘".data, "근래".data, "최근에".data,
     "요즘에".data],
   -- r'^(올해|작년|내년|재작년).*(은|는|에|의)?$'
   matchesAltPrefix ["올해".data, "작년".data, "내년".data, "재작년".data],
   -- r'^(이번|지난|다음|저번|그|이|저).*(주|달|년|해)$'
   matchesPrefixSuffix ["이번".data, "지난".data, "다음".data, "저번".data,
     "그".data, "이".data, "저".data]
     ["주".data, "달".data, "년".data, "해".data],
   -- r'^(회의|미팅|회의록|세미나|워크샵)(가|이|은|는|을|를|에|의|있었|있나|였|인)?$'
   matchesAltOptSuffix ["회의".data, "미팅".data, "회의록".data,
     "세미나".data, "워크샵".data]
     ["가".data, "이".data, "은".data, "는".data, "을".data, "를".data,
      "에".data, "의".data, "있었".data, "있나".data, "였".data, "인".data],
   -- r'^(예정|완료|진행|끝난|지난|과거|미래).*(된|되어|이|인|의)?$'
   matchesAltPrefix ["예정".data, "완료".data, "진행".data, "끝난".data,
     "지난".data, "과거".data, "미래".data],
   -- r'^(진행중|진행|완료|예정|끝).*(이|인)?$'
   matchesAltPrefix ["진행중".data, "진행".data, "완료".data, "예정".data,
     "끝".data],
   -- r'^(뭐|무엇|무슨|어떤|어느).*(가|를|에|야|지|야|였지|였어|있었지|인지)?$'
   matchesAltPrefix ["뭐".data, "무엇".data, "무슨".data, "어떤".data,
     "어느".data],
   -- r'^(언제|어디|누가|누구|왜|어떻게|어찌).*(가|를|에|서|인지)?$'
   matchesAltPrefix ["언제".data, "어디".data, "누가".data, "누구".data,
     "왜".data, "어떻게".data, "어찌".data],
   -- r'^(몇|얼마|어느).*(개|명|번|시|분|일|인지)?$'
   matchesAltPrefix ["몇".data, "얼마".data, "어느".data],
   -- r'.+(었어|었나|었니|었는지|었을까|었을|었던)$'
   matchesDotPlusSuffix ["었어".data, "었나".data, "었니".data,
     "었는지".data, "었을까".data, "었을".data, "었던".data],
   -- r'.+(있어|있나|있니|있는지|있을까|있을|있는|있던)$'
   matchesDotPlusSuffix ["있어".data, "있나".data, "있니".data,
     "있는지".data, "있을까".data, "있을".data, "있는".data, "있던".data],
   -- r'.+(했어|했나|했니|했는지|했을까|했을|했던|함)$'
   matchesDotPlusSuffix ["했어".data, "했나".data, "했니".data,
     "했는지".data, "했을까".data, "했을".data, "했던".data, "함".data],
   -- r'.+(이야|이니|인지|일까|인가|이었|이었어)$'
   matchesDotPlusSuffix ["이야".data, "이니".data, "인지".data, "일까".data,
     "인가".data, "이었".data, "이었어".data],
   -- r'.+(하는|하니|할까|할지|하지|한|하던)$'
   matchesDotPlusSuffix ["하는".data, "하니".data, "할까".data, "할지".data,
     "하지".data, "한".data, "하던".data],
   -- r'.+(되는|되니|될까|될지|되지|된|되던)$'
   matchesDotPlusSuffix ["되는".data, "되니".data, "될까".data, "될지".data,
     "되지".data, "된".data, "되던".data],
   -- r'.+(나|니|지|까|가|냐|냐고)$'
   matchesDotPlusSuffix ["나".data, "니".data, "지".data, "까".data,
     "가".data, "냐".data, "냐고".data],
   -- r'.+(개야|번이야|거야|거니|뭐야|뭔가|뭐지|있어)$'
   matchesDotPlusSuffix ["개야".data, "번이야".data, "거야".data,
     "거니".data, "뭐야".data, "뭔가".data, "뭐지".data, "있어".data],
   -- r'^(동안|사이|중|때|무렵|경|쯤|간|시|분|초)$'
   matchesExact ["동안".data, "사이".data, "중".data, "때".data,
     "무렵".data, "경".data, "쯤".data, "간".data, "시".data, "분".data,
     "초".data],
   -- r'^(년|월|일|주).*(간|동안|사이|중|에|에는|에도)?$'
   matchesAltPrefix ["년".data, "월".data, "일".data, "주".data],
   -- r'^.+(가|이|은|는|을|를|에|의|와|과|로|으로|부터|까지|만|도|조차|마저|부터|한테|께|에게)$'
   matchesDotPlusSuffix ["가".data, "이".data, "은".data, "는".data,
     "을".data, "를".data, "에".data, "의".data, "와".data, "과".data,
     "로".data, "으로".data, "부터".data, "까지".data, "만".data,
     "도".data, "조차".data, "마저".data, "부터".data, "한테".data,
     "께".data, "에게".data],
   -- r'^.+(라고|이라고|라는|이라는|처럼|같이|마냥|듯이|대로)$'
   matchesDotPlusSuffix ["라고".data, "이라고".data, "라는".data,
     "이라는".data, "처럼".data, "같이".data, "마냥".data, "듯이".data,
     "대로".data],
   -- r'^.+(에서|에게|한테서|로부터)$'
   matchesDotPlusSuffix ["에서".data, "에게".data, "한테서".data,
     "로부터".data],
   -- r'^.+(동안|사이|중|까지)$'
   matchesDotPlusSuffix ["동안".data, "사이".data, "중".data, "까지".data],
   -- r'^(이|그|저|요|저것|이것|그것).*(가|이|은|는|을|를)?$'
   matchesAltPrefix ["이".data, "그".data, "저".data, "요".data,
     "저것".data, "이것".data, "그것".data],
   -- r'^(여기|거기|저기|어디).*(서|에|로|가)?$'
   matchesAltPrefix ["여기".data, "거기".data, "저기".data, "어디".data],
   -- r'^(이렇게|그렇게|저렇게|어떻게)$'
   matchesExact ["이렇게".data, "그렇게".data, "저렇게".data,
     "어떻게".data],
   -- r'^(좀|약간|조금|많이|아주|완전|정말|진짜|매우|꽤|제법|대단히|상당히|굉장히|엄청|너무|되게|무척|퍽|참)$'
   matchesExact ["좀".data, "약간".data, "조금".data, "많이".data,
     "아주".data, "완전".data, "정말".data, "진짜".data, "매우".data,
     "꽤".data, "제법".data, "대단히".data, "상당히".data, "굉장히".data,
     "엄청".data, "너무".data, "되게".data, "무척".data, "퍽".data,
     "참".data],
   -- r'^(아마|혹시|만약|절대|결코|전혀|별로)$'
   matchesExact ["아마".data, "혹시".data, "만약".data, "절대".data,
     "결코".data, "전혀".data, "별로".data],
   -- r'^(빨리|천천히|갑자기|슬슬|서서히)$'
   matchesExact ["빨리".data, "천천히".data, "갑자기".data, "슬슬".data,
     "서서히".data],
   -- r'^(그리고|그러나|하지만|그런데|근데|그래서|따라서|그러므로|그렇지만|그치만)$'
   matchesExact ["그리고".data, "그러나".data, "하지만".data, "그런데".data,
     "근데".data, "그래서".data, "따라서".data, "그러므로".data,
     "그렇지만".data, "그치만".data],
   -- r'^(그럼|그래|그치|맞아|맞지|응|네|예|아니)$'
   matchesExact ["그럼".data, "그래".data, "그치".data, "맞아".data,
     "맞지".data, "응".data, "네".data, "예".data, "아니".data],
   -- r'^(찾아|알려|보여|말해|설명|가르쳐|검색|얘기|이야기).*(줘|주세요|봐|주|줄래|주실래)?$'
   matchesAltPrefix ["찾아".data, "알려".data, "보여".data, "말해".data,
     "설명".data, "가르쳐".data, "검색".data, "얘기".data, "이야기".data],
   -- r'^(줘|아줘|해줘)$'
   matchesExact ["줘".data, "아줘".data, "해줘".data],
   -- r'^(있|없|계시).+(어|었어|나|니|을까|는지|던|다|십니까)$'
   matchesPrefixPlusSuffix ["있".data, "없".data, "계시".data]
     ["어".data, "었어".data, "나".data, "니".data, "을까".data,
      "는지".data, "던".data, "다".data, "십니까".data],
   -- r'^(있어|없어|없나|없니)$'
   matchesExact ["있어".data, "없어".data, "없나".data, "없니".data],
   -- r'^(하나|둘|셋|한개|두개|몇개).*(밖에|만|뿐)?$'
   matchesAltPrefix ["하나".data, "둘".data, "셋".data, "한개".data,
     "두개".data, "몇개".data],
   -- r'^(거|것|게).*(야|인가|인지|냐|까)?$'
   matchesAltPrefix ["거".data, "것".data, "게".data],
   -- r'^(건가|건지|거나|거든|거야|걸까)$'
   matchesExact ["건가".data, "건지".data, "거나".data, "거든".data,
     "거야".data, "걸까".data],
   -- r'.+(였더라|였지|더라|였나|였어|였는지|었더라|었지)$'
   matchesDotPlusSuffix ["였더라".data, "였지".data, "더라".data,
     "였나".data, "였어".data, "였는지".data, "었더라".data, "었지".data],
   -- r'^(기억|생각).*(나|안나|못|해|하니)?$'
   matchesAltPrefix ["기억".data, "생각".data],
   -- r'^(관련|대해|관해|대한|관한)$'
   matchesExact ["관련".data, "대해".data, "관해".data, "대한".data,
     "관한".data],
   -- r'^(내용|정보|사항|항목|자료|데이터)$'
   matchesExact ["내용".data, "정보".data, "사항".data, "항목".data,
     "자료".data, "데이터".data],
   -- r'^(전부|모두|다|전체|모든|각|모)$'
   matchesExact ["전부".data, "모두".data, "다".data, "전체".data,
     "모든".data, "각".data, "모".data],
   -- r'^(하나|둘|셋|여러|몇몇)$'
   matchesExact ["하나".data, "둘".data, "셋".data, "여러".data,
     "몇몇".data],
   -- r'^(위해|위한|대로|만큼|처럼)$'
   matchesExact ["위해".data, "위한".data, "대로".data, "만큼".data,
     "처럼".data]]

def is_meaningless (t : Str) : Bool :=
  meaningless_matchers.any (fun f => f t)

/-- `extract_keywords_from_query` (lines 399-536): Korean runs of length
at least two, the processed english/number runs, the compound split, the
stoplist filter, and first-seen deduplication. -/
def extract_keywords_from_query (utterance : Str) : List Str :=
  let tokens := (runsBy isHangul utterance).filter
    (fun r => decide (2 ≤ r.length))
  let tokens := tokens ++
    processEnglishTokens utterance (runsBy isAsciiAlnum utterance)
  let processed := tokens.map splitCompound
  let keywords := processed.filter (fun t => !is_meaningless t)
  pyDedup keywords

/-- `' '.join(keywords)`, the re-input of the idempotence claim. -/
def joinKws (ks : List Str) : Str := joinWith " ".data ks

-- ============================================================
-- Concrete inputs used by counterexamples and witnesses
-- ============================================================

def now0 : PyDateTime := ⟨2025, 10, 12, 9, 30, 0⟩

def mkMeet (i : Nat) (title : Str) : MeetingRow :=
  { id := i, title := title, description := none, summary := none,
    scheduled_at := none, status := "SCHEDULED".data }

/-- Ten meetings whose BACKEND_DEVELOPER persona scores are the ten
distinct values 0, 10, ..., 90. -/
def ex_meetings10 : List MeetingRow :=
  [mkMeet 0 "회".data,
   mkMeet 1 "서버".data,
   mkMeet 2 "서버 배포".data,
   mkMeet 3 "서버 배포 인프라".data,
   mkMeet 4 "서버 배포 인프라 성능".data,
   mkMeet 5 "서버 배포 인프라 성능 아키텍처".data,
   mkMeet 6 "서버 배포 인프라 성능 아키텍처 백엔드".data,
   mkMeet 7 "서버 배포 인프라 성능 아키텍처 백엔드 개발팀".data,
   mkMeet 8 "서버 배포 인프라 성능 아키텍처 백엔드 개발팀 spring".data,
   mkMeet 9 "서버 배포 인프라 성능 아키텍처 백엔드 개발팀 spring node".data]

/-- A rung configuration with two keywords and a state filter. -/
def c2_cfg : RungCfg :=
  { user_name := some "김".data, keywords := ["기획".data, "보안".data],
    date_start := none, date_end := none,
    status := some "COMPLETED".data, selected_meeting_id := none,
    now := now0 }

/-- A meeting matching only the first of the two keywords. -/
def c2_row : MeetingRow :=
  { id := 1, title := "기획 정리".data, description := none,
    summary := none, scheduled_at := none, status := "SCHEDULED".data,
    participants := ["김".data] }

/-- The requester's other-user names as `search_tasks` resolves them
(`SELECT name FROM user WHERE id != %s`). -/
def otherNamesOf (db : TaskDB) (uid : Nat) : List Str :=
  (db.users.filter (fun u => u.1 ≠ uid)).map (fun u => u.2)

/-- An open action item in meeting 5 assigned to user 2. -/
def c4_ai : ActionItemRow :=
  { id := 1, task := "보고서 정리".data, meeting_id := some 5,
    meeting_host := some 1, assignee_user_id := some 2,
    due_date := some "2025-10-20".data, is_completed := false }

/-- A store where meeting 5 has one open action item assigned to the
other user 김철수, and no tasks at all. -/
def c4_db : TaskDB :=
  { tasks := [], action_items := [c4_ai],
    users := [(1, "나".data), (2, "김철수".data)] }

def zeroSim : Str → Str → ℚ := fun _ _ => 0

def c6_ms : List MeetingRow := [mkMeet 1 "가나".data, mkMeet 2 "다라".data]

/-- What C10 says each returned row is: the input row with the relevance
score attached and the transient time-distance key absent. -/
def personaFinalDecorate (user_job : Str) (m : MeetingRow) : MeetingRow :=
  { m with relevance_score := some (calculate_relevance m user_job),
           time_distance := none }

/-- The DateInfo claim C8 expects for `m1월 d1일부터 m2월 d2일`. -/
def c8_expected (y : Int) (m1 d1 m2 d2 : Nat) : DateInfo :=
  { type := some "range".data,
    start_date := some ⟨y, m1, d1, 0, 0, 0⟩,
    end_date := some ⟨y, m2, d2, 23, 59, 59⟩,
    original := some (digitsOfNat m1 ++ "월 ".data ++ digitsOfNat d1 ++
      "일부터 ".data ++ digitsOfNat m2 ++ "월 ".data ++ digitsOfNat d2 ++
      "일".data) }

-- ============================================================
-- THEOREMS
-- ============================================================

/-- Claim C7: the Lifecycle State Classifier gives sentence-final
past-tense endings absolute priority (COMPLETED even when another state's
explicit keyword is present), then future-tense endings (SCHEDULED), then
the explicit keyword sets in the fixed order SCHEDULED, COMPLETED,
RECORDING, CANCELLED, first hit winning, and the none sentinel otherwise:
the translated classifier equals the ordered first-hit rule list built
from exactly that priority order. -/
theorem C7_status_classifier_priority (q : Str) :
    parse_status_from_query q = parse_status_claim q := by
  unfold parse_status_from_query parse_status_claim status_rule_list
  cases h1 : past_tense_hit (lowerStr q) <;>
  cases h2 : future_tense_hit (lowerStr q) <;>
  cases h3 : strContainsAny (lowerStr q) scheduled_keywords <;>
  cases h4 : strContainsAny (lowerStr q) completed_keywords <;>
  cases h5 : strContainsAny (lowerStr q) recording_keywords <;>
  cases h6 : strContainsAny (lowerStr q) cancelled_keywords <;>
  simp [List.find?, h1, h2, h3, h4, h5, h6]

/-- Claim C1 (code bug evidence): on ten candidates whose persona scores
are the ten distinct values 0..90, the source's split keeps only the 4
highest-scoring rows in the tier that is re-sorted by time - the
documented and claimed "top 70%" tier would hold 7 - because
`scores[int(n*0.3)]` indexes the descending score list, making the
threshold the 30th percentile from the top instead of from the bottom. -/
theorem C1_persona_split_sizes :
    (persona_high now0 "BACKEND_DEVELOPER".data ex_meetings10).length = 4 ∧
    (persona_low now0 "BACKEND_DEVELOPER".data ex_meetings10).length = 6 ∧
    persona_threshold now0 "BACKEND_DEVELOPER".data ex_meetings10 = 60 := by
  refine ⟨by decide, by decide, by decide⟩

/-- Claim C5 (counterexample): a store exception raised during the
requester-name lookup of `search_meetings_direct` - which runs before the
`try` block - propagates out of the public entry point instead of being
converted to a `(message, records)` pair. -/
theorem C5_exception_escapes_pre_lookup :
    @search_meetings_direct_boundary String (some 1)
      (Except.error "store failure") (some ())
      (fun _ _ => Except.ok ([], [])) = Except.error "store failure" := rfl

/-- Claim C5 (amended): store exceptions raised inside each entry point's
`try` block never escape - a failed connection yields the fixed
connection-failure message with an empty record list, any other store
exception the entry point's generic failure message with an empty record
list - with two carve-outs the code forces: `search_meetings_direct` may
propagate store exceptions from its pre-`try` requester lookup (second
conjunct), and `search_meeting_count` signals both failures by returning
the `None` sentinel rather than a `(message, records)` pair. -/
theorem C5_boundaries_amended :
    (∀ (E : Type) (uid : Option Nat) (pre : PreInfo) (conn : Option Unit)
       (body : Unit → PreInfo → Except E (Str × List MeetingRow)),
       search_meetings_direct_boundary uid (Except.ok pre) conn body =
         Except.ok (match conn with
           | none => ("데이터베이스 연결 실패".data, [])
           | some c =>
             match body c (match uid with
               | some _ => pre
               | none => emptyPre) with
             | .ok r => r
             | .error _ => ("검색 중 오류가 발생했어요.".data, []))) ∧
    (∀ (E : Type) (e : E) (uid : Nat) (conn : Option Unit)
       (body : Unit → PreInfo → Except E (Str × List MeetingRow)),
       search_meetings_direct_boundary (some uid) (Except.error e) conn
         body = Except.error e) ∧
    (∀ (E α : Type) (body : Unit → Except E α),
       search_meeting_count_boundary none body = none) ∧
    (∀ (E α : Type) (e : E),
       search_meeting_count_boundary (some ())
         (fun _ => (Except.error e : Except E α)) = none) ∧
    (∀ (E α : Type) (r : α),
       search_meeting_count_boundary (some ())
         (fun _ => (Except.ok r : Except E α)) = some r) ∧
    (∀ (E : Type) (conn : Option Unit)
       (body : Unit → Except E (Str × List TRec)),
       search_tasks_boundary conn body =
         Except.ok (match conn with
           | none => ("데이터베이스 연결 실패".data, [])
           | some c =>
             match body c with
             | .ok r => r
             | .error _ => ("Task 검색 중 오류가 발생했어요. 😢".data, []))) ∧
    (∀ (E α : Type) (conn : Option Unit)
       (body : Unit → Except E (Str × List α)),
       search_participants_boundary conn body =
         Except.ok (match conn with
           | none => ("데이터베이스 연결에 실패했어요. 😢".data, [])
           | some c =>
             match body c with
             | .ok r => r
             | .error _ =>
               ("참석자 검색 중 오류가 발생했어요. 😢".data, []))) ∧
    (∀ (E : Type) (kw : Str) (conn : Option Unit)
       (body : Unit → Except E (Str × List MeetingRow)),
       search_keywords_boundary kw conn body =
         Except.ok (match conn with
           | none => ("데이터베이스 연결 실패".data, [])
           | some c =>
             match body c with
             | .ok r => r
             | .error _ => ("'".data ++ kw ++
                 "' 키워드 검색 중 오류가 발생했어요. 😢".data, []))) := by
  refine ⟨?_, ?_, ?_, ?_, ?_, ?_, ?_, ?_⟩
  · intro E uid pre conn body
    cases uid with
    | none =>
      cases conn with
      | none => rfl
      | some c =>
        cases hb : body c emptyPre <;>
          simp [search_meetings_direct_boundary, bind, Except.bind, pure,
            Except.pure, hb]
    | some u =>
      cases conn with
      | none => rfl
      | some c =>
        cases hb : body c pre <;>
          simp [search_meetings_direct_boundary, bind, Except.bind, pure,
            Except.pure, hb]
  · intro E e uid conn body; rfl
  · intro E α body; rfl
  · intro E α e; rfl
  · intro E α r; rfl
  · intro E conn body
    cases conn with
    | none => rfl
    | some c => cases h : body c <;> simp [search_tasks_boundary, h]
  · intro E α conn body
    cases conn with
    | none => rfl
    | some c => cases h : body c <;> simp [search_participants_boundary, h]
  · intro E kw conn body
    cases conn with
    | none => rfl
    | some c => cases h : body c <;> simp [search_keywords_boundary, h]

/-- Claim C2 (counterexample): with the two keywords 기획 and 보안, a
meeting matching only 기획 satisfies the rung-1 filter the source builds
(keywords OR-joined) but not "the rung-0 filters with only the
lifecycle-state filter removed" (keywords still AND-joined), so rung 1
does not re-run exactly the rung-0 filters minus the state. -/
theorem C2_rung1_not_rung0_minus_state :
    rung1_row_pred c2_cfg c2_row = true ∧
    rung1_claim_pred c2_cfg c2_row = false := by
  refine ⟨by decide, by decide⟩

theorem mem_pyDedupAux {α : Type} [DecidableEq α] (l : List α) :
    ∀ (seen : List α) (a : α),
      a ∈ pyDedupAux seen l ↔ a ∈ l ∧ a ∉ seen := by
  induction l with
  | nil => intro seen a; simp [pyDedupAux]
  | cons x xs ih =>
    intro seen a
    by_cases hx : x ∈ seen
    · by_cases hax : a = x
      · subst hax; simp [pyDedupAux, hx, ih, hx]
      · simp [pyDedupAux, hx, ih, hax]
    · by_cases hax : a = x
      · subst hax; simp [pyDedupAux, hx, ih]
      · simp [pyDedupAux, hx, ih, hax]

theorem mem_pyDedup {α : Type} [DecidableEq α] (l : List α) (a : α) :
    a ∈ pyDedup l ↔ a ∈ l := by
  simp [pyDedup, mem_pyDedupAux]

theorem joinWith_mem_infix (sep : Str) (parts : List Str) (x : Str)
    (hx : x ∈ parts) : x <:+: joinWith sep parts := by
  induction parts with
  | nil => cases hx
  | cons a rest ih =>
    cases rest with
    | nil =>
      have : x = a := by simpa using hx
      subst this
      exact List.infix_refl x
    | cons b more =>
      rcases List.mem_cons.mp hx with rfl | hx'
      · exact ⟨[], sep ++ joinWith sep (b :: more),
          by simp [joinWith, List.append_assoc]⟩
      · rcases ih hx' with ⟨s, t, hst⟩
        exact ⟨(a ++ sep) ++ s, t, by simp [joinWith, ← hst,
          List.append_assoc]⟩

/-- Claim C10: the persona ranker returns a permutation of its input rows
- none added, dropped or duplicated - each carrying the attached
relevance score, with the transient time-distance key removed. -/
theorem C10_persona_permutation (now : PyDateTime) (user_job : Str)
    (ms : List MeetingRow) :
    (search_with_persona now user_job ms).Perm
      (ms.map (personaFinalDecorate user_job)) ∧
    ∀ r ∈ search_with_persona now user_job ms, r.time_distance = none := by
  constructor
  · unfold search_with_persona
    have h1 := List.perm_insertionSort tdRel (persona_high now user_job ms)
    have h2 := List.perm_insertionSort scoreDescRel
      (persona_low now user_job ms)
    have hlow : persona_low now user_job ms =
        (ms.map (personaDecorate now user_job)).filter
          (fun m => !(decide (persona_threshold now user_job ms ≤ scoreOf m))) := by
      unfold persona_low
      apply List.filter_congr
      intro m _
      by_cases h : persona_threshold now user_job ms ≤ scoreOf m
      · have h' : ¬ (scoreOf m < persona_threshold now user_job ms) :=
          not_lt.mpr h
        simp [h, h']
      · have h' : scoreOf m < persona_threshold now user_job ms :=
          Nat.lt_of_not_le h
        simp [h, h']
    have h3 : (persona_high now user_job ms ++
        persona_low now user_job ms).Perm
        (ms.map (personaDecorate now user_job)) := by
      rw [hlow]
      exact List.filter_append_perm _ _
    have h4 := ((h1.append h2).trans h3).map
      (fun m => { m with time_distance := none })
    refine h4.trans ?_
    have hmap : ((ms.map (personaDecorate now user_job)).map
        (fun m => { m with time_distance := none })) =
        ms.map (personaFinalDecorate user_job) := by
      rw [List.map_map]
      apply List.map_congr_left
      intro m _
      rfl
    rw [hmap]
  · intro r hr
    unfold search_with_persona at hr
    rcases List.mem_map.mp hr with ⟨x, _, rfl⟩
    rfl

/-- Claim C2 (amended): rung 1 re-runs the requester-attendance and date
filters of rung 0 but combines the keyword groups with OR regardless of
their number, and drops the context-meeting filter along with the
lifecycle state (first part; the second part shows the claim's
"rung-0 minus state" reading is recovered exactly when at most one
keyword and no context meeting are present).  When the re-run yields
rows, the response names the state found: the single-row message contains
the Korean name of the row's state, and the multi-row message contains
the Korean name of every state present that differs from the requested
one. -/
theorem C2_rung1_amended (cfg : RungCfg) :
    (∀ m : MeetingRow, rung1_row_pred cfg m = true ↔
      (requesterOK cfg m = true ∧ dateOK cfg m = true ∧
        (cfg.keywords = [] ∨ ∃ kw ∈ cfg.keywords, keywordCond m kw = true))) ∧
    (∀ m : MeetingRow, cfg.keywords.length ≤ 1 →
      cfg.selected_meeting_id = none →
      rung1_row_pred cfg m = rung1_claim_pred cfg m) ∧
    (∀ (st detail : Str) (f : MeetingRow),
      status_kr_get f.status <:+: rung1_success_message st [f] detail) ∧
    (∀ (st detail : Str) (fb : List MeetingRow) (s : Str),
      2 ≤ fb.length → s ∈ fb.map (fun m => m.status) → s ≠ st →
      status_kr_get s <:+: rung1_success_message st fb detail) := by
  refine ⟨?_, ?_, ?_, ?_⟩
  · intro m
    unfold rung1_row_pred keywordsRung1
    cases hk : cfg.keywords with
    | nil => simp [Bool.and_eq_true]
    | cons k ks =>
      simp [Bool.and_eq_true, List.any_eq_true]; tauto
  · intro m hlen hsel
    unfold rung1_row_pred rung1_claim_pred rung0_row_pred keywordsRung0
      keywordsRung1 statusOK selectedOK
    cases hk : cfg.keywords with
    | nil => simp [hsel, requesterOK, dateOK]
    | cons k ks =>
      cases ks with
      | nil => simp [hsel, requesterOK, dateOK]
      | cons k2 ks2 => rw [hk] at hlen; simp at hlen
  · intro st detail f
    refine ⟨"❌ ".data ++ status_kr_get st ++
      " 회의는 없어요.\n\n하지만 ".data,
      " 회의가 있습니다! 📌\n\n".data ++ detail ++
      "\n\n이 회의를 확인해보시겠어요?".data, ?_⟩
    simp [rung1_success_message, rung1_single_message, List.append_assoc]
  · intro st detail fb s hlen hs hne
    match fb, hlen with
    | a :: b :: rest, _ =>
      have hmsg : rung1_success_message st (a :: b :: rest) detail =
          rung1_multi_message st (a :: b :: rest) detail := rfl
      rw [hmsg]
      have hdedup : s ∈ pyDedup ((a :: b :: rest).map (fun m => m.status)) :=
        (mem_pyDedup _ s).mpr hs
      have hrem : s ∈ (pyDedup ((a :: b :: rest).map
          (fun m => m.status))).filter (fun x => x ≠ st) :=
        List.mem_filter.mpr ⟨hdedup, by simpa using hne⟩
      have hnames : status_kr_get s ∈ (((pyDedup ((a :: b :: rest).map
          (fun m => m.status))).filter (fun x => x ≠ st)).map
            status_kr_get) :=
        List.mem_map_of_mem _ hrem
      have hfound : status_kr_get s <:+:
          rung1_multi_found_text st (a :: b :: rest) := by
        unfold rung1_multi_found_text
        have hne' : (((pyDedup ((a :: b :: rest).map
            (fun m => m.status))).filter (fun x => x ≠ st)).map
              status_kr_get).isEmpty = false := by
          cases h' : (((pyDedup ((a :: b :: rest).map
            (fun m => m.status))).filter (fun x => x ≠ st)).map
              status_kr_get) with
          | nil => rw [h'] at hnames; cases hnames
          | cons y ys => rfl
        simp only [hne', if_false, Bool.false_eq_true]
        exact joinWith_mem_infix _ _ _ hnames
      have hmsgin : rung1_multi_found_text st (a :: b :: rest) <:+:
          rung1_multi_message st (a :: b :: rest) detail := by
        refine ⟨"❌ ".data ++ status_kr_get st ++
          " 회의는 없어요.\n\n하지만 ".data,
          " 회의들이 있습니다! 📋\n\n".data ++ detail, ?_⟩
        simp [rung1_multi_message, List.append_assoc]
      exact hfound.trans hmsgin

theorem C2_rung1_amended_witness :
    rung1_row_pred { c2_cfg with keywords := ["기획".data] } c2_row =
      rung1_claim_pred { c2_cfg with keywords := ["기획".data] } c2_row ∧
    status_kr_get c2_row.status <:+:
      rung1_success_message "COMPLETED".data [c2_row] "detail".data ∧
    status_kr_get "SCHEDULED".data <:+:
      rung1_success_message "COMPLETED".data [c2_row, c2_row]
        "detail".data :=
  ⟨(C2_rung1_amended { c2_cfg with keywords := ["기획".data] }).2.1 c2_row
      (by decide) rfl,
   (C2_rung1_amended c2_cfg).2.2.1 "COMPLETED".data "detail".data c2_row,
   (C2_rung1_amended c2_cfg).2.2.2 "COMPLETED".data "detail".data
     [c2_row, c2_row] "SCHEDULED".data (by decide) (by decide) (by decide)⟩

theorem foldl_max_mem (rs : List (MeetingRow × ℚ)) :
    ∀ r : MeetingRow × ℚ,
      rs.foldl (fun acc x => if acc.2 < x.2 then x else acc) r ∈ r :: rs := by
  induction rs with
  | nil => intro r; simp
  | cons x xs ih =>
    intro r
    have h := ih (if r.2 < x.2 then x else r)
    simp only [List.foldl_cons]
    rcases List.mem_cons.mp h with h' | h'
    · rw [h']
      by_cases hc : r.2 < x.2 <;> simp [hc]
    · simp [h']

theorem foldl_max_ub (rs : List (MeetingRow × ℚ)) :
    ∀ (r : MeetingRow × ℚ) (y : MeetingRow × ℚ), y ∈ r :: rs →
      y.2 ≤ (rs.foldl (fun acc x => if acc.2 < x.2 then x else acc) r).2 := by
  induction rs with
  | nil => intro r y hy; simp at hy; simp [hy]
  | cons x xs ih =>
    intro r y hy
    simp only [List.foldl_cons]
    have hstep : ∀ z : MeetingRow × ℚ, z = r ∨ z = x →
        z.2 ≤ (if r.2 < x.2 then x else r).2 := by
      intro z hz
      by_cases hc : r.2 < x.2 <;> rcases hz with rfl | rfl <;>
        simp [hc] <;> linarith [hc]
    rcases List.mem_cons.mp hy with h1 | hy'
    · subst h1
      exact le_trans (hstep y (Or.inl rfl))
        (ih (if y.2 < x.2 then x else y) _ (List.mem_cons_self _ _))
    · rcases List.mem_cons.mp hy' with h2 | hy''
      · subst h2
        exact le_trans (hstep y (Or.inr rfl))
          (ih (if r.2 < y.2 then y else r) _ (List.mem_cons_self _ _))
      · exact ih (if r.2 < x.2 then x else r) y (List.mem_cons_of_mem _ hy'')

/-- Claim C6: after keyword scoring of a multi-candidate set, the
similarity-collapse step keeps exactly the (first-encountered) best-ratio
record when the best ratio is at least 0.7 and beats the runner-up by at
least 0.2, and keeps the multi-record set otherwise; the collapsed record
really is a ratio maximum of the candidate set. -/
theorem C6_collapse_threshold (sim : Str → Str → ℚ) (q : Str)
    (ms : List MeetingRow) (h : 1 < ms.length) (best : MeetingRow × ℚ)
    (hb : maxBySecond (similarity_rows sim q ms) = some best) :
    (∀ x ∈ similarity_rows sim q ms, x.2 ≤ best.2) ∧
    ((7 : ℚ)/10 ≤ best.2 ∧
      (2 : ℚ)/10 ≤ best.2 - second_best_ratio (similarity_rows sim q ms) →
      collapse_to_single sim q ms = [best.1]) ∧
    (¬ ((7 : ℚ)/10 ≤ best.2 ∧
      (2 : ℚ)/10 ≤ best.2 - second_best_ratio (similarity_rows sim q ms)) →
      collapse_to_single sim q ms = ms) := by
  refine ⟨?_, ?_, ?_⟩
  · intro x hx
    cases hsims : similarity_rows sim q ms with
    | nil => rw [hsims] at hx; cases hx
    | cons r rs =>
      rw [hsims] at hx
      have hms : maxBySecond (r :: rs) = some best := by rw [← hsims, hb]
      have hfold : rs.foldl (fun acc y => if acc.2 < y.2 then y else acc) r
          = best := by
        simpa [maxBySecond] using hms
      rw [← hfold]
      exact foldl_max_ub rs r x hx
  · rintro ⟨h1, h2⟩
    unfold collapse_to_single
    rw [if_pos h]
    simp only [hb, h1, h2, if_pos]
  · intro hcon
    unfold collapse_to_single
    rw [if_pos h]
    simp only [hb]
    by_cases h1 : (7 : ℚ)/10 ≤ best.2
    · have h2 : ¬ ((2 : ℚ)/10 ≤ best.2 -
          second_best_ratio (similarity_rows sim q ms)) := by
        intro h2'; exact hcon ⟨h1, h2'⟩
      simp [h1, h2]
    · simp [h1]

theorem C6_collapse_witness :
    1 < c6_ms.length ∧
    ∀ x ∈ similarity_rows zeroSim "아".data c6_ms,
      x.2 ≤ (mkMeet 1 "가나".data, (0 : ℚ)).2 :=
  ⟨by decide,
   (C6_collapse_threshold zeroSim "아".data c6_ms (by decide)
     (mkMeet 1 "가나".data, (0 : ℚ)) (by decide)).1⟩

/-- Claim C9: a first-range-pattern match whose dates fail `datetime`
construction does not raise; the pattern is skipped and parsing continues
with the next pattern of the precedence order (the embedding is total, so
nothing can propagate; `parse_date_from_pat2` is by construction the
pipeline that ends in the all-`None` DateInfo when no later pattern
matches). -/
theorem C9_invalid_range_skipped (today : PyDateTime) (q : Str)
    (m1 d1 m2 d2 : Nat)
    (hs : searchA pRange1 q = some (m1, d1, m2, d2))
    (hinv : mk_datetime today.year m1 d1 0 0 0 = none ∨
      mk_datetime today.year m2 d2 23 59 59 = none) :
    parse_date_from_query today q = parse_date_from_pat2 today q := by
  have hhandler : rangeFourHandler today "일부터 ".data (m1, d1, m2, d2) =
      none := by
    unfold rangeFourHandler
    rcases hinv with h | h
    · simp [h]
    · cases hstart : mk_datetime today.year m1 d1 0 0 0 with
      | none => simp [hstart]
      | some s => simp [hstart, h]
  unfold parse_date_from_query parse_date_from_pat2 rangeBlockStage
  simp only [hs, hhandler]

theorem C9_invalid_range_witness :
    searchA pRange1 "2월 30일부터 3월 5일".data = some (2, 30, 3, 5) ∧
    parse_date_from_query now0 "2월 30일부터 3월 5일".data =
      parse_date_from_pat2 now0 "2월 30일부터 3월 5일".data ∧
    parse_date_from_query now0 "2월 30일부터 3월 5일".data =
      emptyDateInfo :=
  ⟨by decide,
   C9_invalid_range_skipped now0 "2월 30일부터 3월 5일".data 2 30 3 5
     (by decide) (Or.inl (by decide)),
   by decide⟩

theorem digitChar_facts (n : Nat) (h : n < 10) :
    (Char.ofNat ('0'.toNat + n)).isDigit = true ∧
    digitVal (Char.ofNat ('0'.toNat + n)) = n ∧
    (Char.ofNat ('0'.toNat + n)).isWhitespace = false := by
  interval_cases n <;> exact ⟨by decide, by decide, by decide⟩

theorem head_not_digit_cons (c : Char) (hc : c.isDigit = false) (t : Str) :
    ∀ x ∈ (c :: t).head?, x.isDigit = false := by
  intro x hx
  simp only [List.head?] at hx
  cases hx
  exact hc

theorem pDigits12_digits (n : Nat) (h : n ≤ 99) (rest : Str)
    (hrest : ∀ c ∈ rest.head?, c.isDigit = false) :
    pDigits12 (digitsOfNat n ++ rest) = some (n, rest) := by
  by_cases h10 : n < 10
  · have hd := digitChar_facts n h10
    unfold digitsOfNat
    rw [if_pos h10]
    cases rest with
    | nil =>
      simp only [List.append_nil, pDigits12, hd.1, hd.2.1, if_true]
    | cons r rs =>
      have hr : r.isDigit = false := hrest r rfl
      simp only [List.cons_append, List.nil_append, pDigits12, hd.1,
        hd.2.1, hr, if_true, if_false, Bool.false_eq_true]
  · have h1 : n / 10 < 10 := by omega
    have h2 : n % 10 < 10 := Nat.mod_lt _ (by norm_num)
    have hdA := digitChar_facts (n / 10) h1
    have hdB := digitChar_facts (n % 10) h2
    unfold digitsOfNat
    rw [if_neg h10]
    simp only [List.cons_append, List.nil_append, pDigits12, hdA.1,
      hdA.2.1, hdB.1, hdB.2.1, if_true, Option.some.injEq, Prod.mk.injEq]
    exact ⟨by omega, trivial⟩

theorem digitsOfNat_cons (n : Nat) (h : n ≤ 99) :
    ∃ c t, digitsOfNat n = c :: t ∧ c.isDigit = true ∧
      c.isWhitespace = false := by
  by_cases h10 : n < 10
  · have hd := digitChar_facts n h10
    exact ⟨_, _, by unfold digitsOfNat; rw [if_pos h10], hd.1, hd.2.2⟩
  · have h1 : n / 10 < 10 := by omega
    have hd := digitChar_facts (n / 10) h1
    exact ⟨_, _, by unfold digitsOfNat; rw [if_neg h10], hd.1, hd.2.2⟩

theorem dropWhile_ws_digits (n : Nat) (h : n ≤ 99) (X : Str) :
    (digitsOfNat n ++ X).dropWhile Char.isWhitespace =
      digitsOfNat n ++ X := by
  obtain ⟨c, t, hct, _, hws⟩ := digitsOfNat_cons n h
  rw [hct]
  simp [List.dropWhile, hws]

theorem pMonthDay_digits (m d : Nat) (hm : m ≤ 99) (hd : d ≤ 99)
    (rest : Str) (hrest : ∀ c ∈ rest.head?, c.isDigit = false) :
    pMonthDay (digitsOfNat m ++ '월' :: ' ' ::
      (digitsOfNat d ++ '일' :: rest)) = some ((m, d), rest) := by
  have hdw : List.dropWhile Char.isWhitespace
      (' ' :: (digitsOfNat d ++ '일' :: rest)) =
      digitsOfNat d ++ '일' :: rest := by
    rw [show List.dropWhile Char.isWhitespace
      (' ' :: (digitsOfNat d ++ '일' :: rest)) =
      List.dropWhile Char.isWhitespace (digitsOfNat d ++ '일' :: rest)
      from by simp [List.dropWhile]]
    exact dropWhile_ws_digits d hd _
  unfold pMonthDay
  rw [pDigits12_digits m hm _ (head_not_digit_cons '월' (by decide) _)]
  simp only [pChar, pWs, beq_self_eq_true, if_true]
  rw [hdw]
  rw [pDigits12_digits d hd _ (head_not_digit_cons '일' (by decide) _)]
  simp

theorem head_nil_no_digit :
    ∀ x ∈ ([] : Str).head?, x.isDigit = false := by
  intro x hx; cases hx

theorem pRange1_digits (m1 d1 m2 d2 : Nat) (hm1 : m1 ≤ 99) (hd1 : d1 ≤ 99)
    (hm2 : m2 ≤ 99) (hd2 : d2 ≤ 99) :
    pRange1 (digitsOfNat m1 ++ '월' :: ' ' :: (digitsOfNat d1 ++ '일' ::
      '부' :: '터' :: ' ' :: (digitsOfNat m2 ++ '월' :: ' ' ::
        (digitsOfNat d2 ++ ['일'])))) = some ((m1, d1, m2, d2), []) := by
  unfold pRange1
  rw [pMonthDay_digits m1 d1 hm1 hd1 _
    (head_not_digit_cons '부' (by decide) _)]
  simp only [pWs]
  rw [show List.dropWhile Char.isWhitespace
    ('부' :: '터' :: ' ' :: (digitsOfNat m2 ++ '월' :: ' ' ::
      (digitsOfNat d2 ++ ['일']))) =
    '부' :: '터' :: ' ' :: (digitsOfNat m2 ++ '월' :: ' ' ::
      (digitsOfNat d2 ++ ['일'])) from by simp [List.dropWhile]]
  simp only [pStr, List.isPrefixOf, beq_self_eq_true, Bool.and_self,
    if_true, List.drop]
  rw [show List.dropWhile Char.isWhitespace
    (' ' :: (digitsOfNat m2 ++ '월' :: ' ' :: (digitsOfNat d2 ++ ['일']))) =
    List.dropWhile Char.isWhitespace
      (digitsOfNat m2 ++ '월' :: ' ' :: (digitsOfNat d2 ++ ['일']))
    from by simp [List.dropWhile]]
  rw [dropWhile_ws_digits m2 hm2]
  rw [pMonthDay_digits m2 d2 hm2 hd2 [] head_nil_no_digit]

theorem searchA_head {α : Type} (mm : Str → Option (α × Str)) (c : Char)
    (t : Str) (g : α) (rem : Str) (h : mm (c :: t) = some (g, rem)) :
    searchA mm (c :: t) = some g := by
  simp [searchA, h]

theorem nat_repr_small : ∀ n < 32, (Nat.repr n).data = digitsOfNat n := by
  decide

/-- Claim C8: for every query of the form
`<month>월 <day>일부터 <month2>월 <day2>일` with valid calendar dates, the
Temporal Parser returns a range DateInfo from day1 00:00:00 to day2
23:59:59 in the current year. -/
theorem C8_explicit_range (today : PyDateTime) (m1 d1 m2 d2 : Nat)
    (hm1 : 1 ≤ m1 ∧ m1 ≤ 12)
    (hd1 : 1 ≤ d1 ∧ d1 ≤ daysInMonth today.year m1)
    (hm2 : 1 ≤ m2 ∧ m2 ≤ 12)
    (hd2 : 1 ≤ d2 ∧ d2 ≤ daysInMonth today.year m2) :
    parse_date_from_query today
      ((Nat.repr m1).data ++ "월 ".data ++ (Nat.repr d1).data ++
        "일부터 ".data ++ (Nat.repr m2).data ++ "월 ".data ++
        (Nat.repr d2).data ++ "일".data) =
    c8_expected today.year m1 d1 m2 d2 := by
  have hdm1 : d1 ≤ 31 := le_trans hd1.2 (by
    unfold daysInMonth; split <;> try split
    all_goals omega)
  have hdm2 : d2 ≤ 31 := le_trans hd2.2 (by
    unfold daysInMonth; split <;> try split
    all_goals omega)
  have e1 : (Nat.repr m1).data = digitsOfNat m1 :=
    nat_repr_small m1 (by omega)
  have e2 : (Nat.repr d1).data = digitsOfNat d1 :=
    nat_repr_small d1 (by omega)
  have e3 : (Nat.repr m2).data = digitsOfNat m2 :=
    nat_repr_small m2 (by omega)
  have e4 : (Nat.repr d2).data = digitsOfNat d2 :=
    nat_repr_small d2 (by omega)
  rw [e1, e2, e3, e4]
  have hshape : digitsOfNat m1 ++ "월 ".data ++ digitsOfNat d1 ++
      "일부터 ".data ++ digitsOfNat m2 ++ "월 ".data ++ digitsOfNat d2 ++
      "일".data =
      digitsOfNat m1 ++ '월' :: ' ' :: (digitsOfNat d1 ++ '일' ::
        '부' :: '터' :: ' ' :: (digitsOfNat m2 ++ '월' :: ' ' ::
          (digitsOfNat d2 ++ ['일']))) := by
    simp only [show "월 ".data = ['월', ' '] from rfl,
      show "일부터 ".data = ['일', '부', '터', ' '] from rfl,
      show "일".data = ['일'] from rfl, List.append_assoc,
      List.cons_append, List.nil_append]
  have hp := pRange1_digits m1 d1 m2 d2 (by omega) (by omega) (by omega)
    (by omega)
  have hsearch : searchA pRange1
      (digitsOfNat m1 ++ '월' :: ' ' :: (digitsOfNat d1 ++ '일' ::
        '부' :: '터' :: ' ' :: (digitsOfNat m2 ++ '월' :: ' ' ::
          (digitsOfNat d2 ++ ['일'])))) = some (m1, d1, m2, d2) := by
    obtain ⟨c, t, hct, _, _⟩ := digitsOfNat_cons m1 (by omega)
    rw [hct] at hp ⊢
    rw [List.cons_append] at hp ⊢
    exact searchA_head _ _ _ _ _ hp
  have hstart : mk_datetime today.year m1 d1 0 0 0 =
      some ⟨today.year, m1, d1, 0, 0, 0⟩ := by
    unfold mk_datetime
    rw [if_pos]
    exact ⟨hm1.1, hm1.2, hd1.1, hd1.2, by omega, by omega, by omega⟩
  have hend : mk_datetime today.year m2 d2 23 59 59 =
      some ⟨today.year, m2, d2, 23, 59, 59⟩ := by
    unfold mk_datetime
    rw [if_pos]
    exact ⟨hm2.1, hm2.2, hd2.1, hd2.2, by omega, by omega, by omega⟩
  have hhandler : rangeFourHandler today "일부터 ".data (m1, d1, m2, d2) =
      some (c8_expected today.year m1 d1 m2 d2) := by
    unfold rangeFourHandler c8_expected
    simp only [hstart, hend]
  rw [hshape]
  unfold parse_date_from_query rangeBlockStage
  simp only [hsearch, hhandler]

/-- Witness for C8: the query `3월 5일부터 4월 10일` (asked on 2025-10-12)
parses to the range 2025-03-05 00:00:00 .. 2025-04-10 23:59:59. -/
theorem C8_explicit_range_witness :
    ((1:Nat) ≤ 3 ∧ 3 ≤ 12) ∧ (1 ≤ 5 ∧ 5 ≤ daysInMonth now0.year 3) ∧
    ((1:Nat) ≤ 4 ∧ 4 ≤ 12) ∧ (1 ≤ 10 ∧ 10 ≤ daysInMonth now0.year 4) ∧
    parse_date_from_query now0
      ((Nat.repr 3).data ++ "월 ".data ++ (Nat.repr 5).data ++
        "일부터 ".data ++ (Nat.repr 4).data ++ "월 ".data ++
        (Nat.repr 10).data ++ "일".data) =
    c8_expected now0.year 3 5 4 10 :=
  ⟨by decide, by decide, by decide, by decide,
   C8_explicit_range now0 3 5 4 10 (by decide) (by decide) (by decide)
     (by decide)⟩

theorem strLtB_trichotomy : ∀ a b : Str,
    strLtB a b = true ∨ a = b ∨ strLtB b a = true
  | [], [] => Or.inr (Or.inl rfl)
  | [], _ :: _ => Or.inl rfl
  | _ :: _, [] => Or.inr (Or.inr rfl)
  | a :: as, b :: bs => by
    rcases lt_trichotomy a b with h | h | h
    · left; unfold strLtB; rw [if_pos h]
    · subst h
      rcases strLtB_trichotomy as bs with h2 | h2 | h2
      · left; unfold strLtB; rw [if_neg (lt_irrefl a), if_pos rfl, h2]
      · subst h2; right; left; rfl
      · right; right; unfold strLtB
        rw [if_neg (lt_irrefl a), if_pos rfl, h2]
    · right; right; unfold strLtB; rw [if_pos h]

theorem strLtB_trans : ∀ a b c : Str, strLtB a b = true →
    strLtB b c = true → strLtB a c = true
  | [], [], _ => by intro h _; simp [strLtB] at h
  | [], _ :: _, [] => by intro _ h; simp [strLtB] at h
  | [], _ :: _, _ :: _ => by intro _ _; rfl
  | _ :: _, [], _ => by intro h _; simp [strLtB] at h
  | _ :: _, _ :: _, [] => by intro _ h; simp [strLtB] at h
  | a :: as, b :: bs, c :: cs => by
    intro h1 h2
    unfold strLtB at h1 h2 ⊢
    by_cases hab : a < b
    · by_cases hbc : b < c
      · rw [if_pos (lt_trans hab hbc)]
      · rw [if_neg hbc] at h2
        by_cases hbc2 : b = c
        · subst hbc2; rw [if_pos hab]
        · rw [if_neg hbc2] at h2; exact absurd h2 (by decide)
    · rw [if_neg hab] at h1
      by_cases hab2 : a = b
      · subst hab2
        rw [if_pos rfl] at h1
        by_cases hac : a < c
        · rw [if_pos hac]
        · rw [if_neg hac] at h2 ⊢
          by_cases hac2 : a = c
          · subst hac2; rw [if_pos rfl] at h2 ⊢
            exact strLtB_trans as bs cs h1 h2
          · rw [if_neg hac2] at h2; exact absurd h2 (by decide)
      · rw [if_neg hab2] at h1; exact absurd h1 (by decide)

theorem strLeB_total (a b : Str) : strLeB a b = true ∨ strLeB b a = true := by
  unfold strLeB
  rcases strLtB_trichotomy a b with h | h | h
  · left; rw [h]; rfl
  · subst h; left; simp
  · right; rw [h]; rfl

theorem strLeB_trans (a b c : Str) (h1 : strLeB a b = true)
    (h2 : strLeB b c = true) : strLeB a c = true := by
  unfold strLeB at h1 h2 ⊢
  simp only [Bool.or_eq_true, beq_iff_eq] at h1 h2 ⊢
  rcases h1 with h1 | h1
  · rcases h2 with h2 | h2
    · exact Or.inl (strLtB_trans a b c h1 h2)
    · subst h2; exact Or.inl h1
  · subst h1; exact h2

theorem key2Le_total (x y : Nat × Str) :
    key2Le x y = true ∨ key2Le y x = true := by
  unfold key2Le
  rcases Nat.lt_trichotomy x.1 y.1 with h | h | h
  · left; simp [h]
  · rcases strLeB_total x.2 y.2 with h2 | h2
    · left; simp [h, h2]
    · right; simp [h, h2]
  · right; simp [h]

theorem key2Le_trans (x y z : Nat × Str) (h1 : key2Le x y = true)
    (h2 : key2Le y z = true) : key2Le x z = true := by
  unfold key2Le at h1 h2 ⊢
  simp only [Bool.or_eq_true, Bool.and_eq_true, beq_iff_eq,
    decide_eq_true_eq] at h1 h2 ⊢
  rcases h1 with h1 | ⟨h1, h1x⟩ <;> rcases h2 with h2 | ⟨h2, h2x⟩
  · exact Or.inl (Nat.lt_trans h1 h2)
  · exact Or.inl (by omega)
  · exact Or.inl (by omega)
  · exact Or.inr ⟨by omega, strLeB_trans _ _ _ h1x h2x⟩

/-- Claim C4 (corrected): on `내가 해야 할 일` with a requester and a
context meeting (and no other user's name in the query), the resolver does
take the my-tasks meeting-scoped branch with the `TODO` status filter, and
every returned record is an open (`TODO`) record of that meeting; but the
task-table rows assigned to the requester are merged with ALL of the
meeting's open action items regardless of assignee, and the merged list is
ordered by due date ascending with dateless records last (the overdue-first
key of the task query does not survive the merge), capped at 30. -/
theorem C4_my_tasks_meeting_amended (sim : Str → Str → ℚ) (db : TaskDB)
    (uid mid : Nat) (otherNames : List Str) (today : Str)
    (hno : findOtherName "내가 해야 할 일".data otherNames = none) :
    search_tasks_branch sim "내가 해야 할 일".data otherNames (some mid) =
      TaskBranch.myTasksMeeting ∧
    task_status_is_completed (lowerStr "내가 해야 할 일".data) = false ∧
    (∀ r ∈ search_tasks_my_meeting_records db uid mid false today,
      r.status = "TODO".data ∧ r.meeting_id = some mid ∧
      (r.source_table = "task".data → r.user_id = some uid) ∧
      (r.source_table = "action_item".data →
        ∃ ai ∈ db.action_items, ai.meeting_id = some mid ∧
          ai.is_completed = false ∧ r = aiToTRec db ai)) ∧
    List.Sorted mergeRel
      (search_tasks_my_meeting_records db uid mid false today) ∧
    (search_tasks_my_meeting_records db uid mid false today).length ≤ 30 := by
  refine ⟨?_, by decide, ?_, ?_, ?_⟩
  · have hmid : effectiveMeetingId sim "내가 해야 할 일".data otherNames
        (some mid) = some mid := by
      unfold effectiveMeetingId; rw [hno]
    simp only [search_tasks_branch, hmid]
    rfl
  · intro r hr
    unfold search_tasks_my_meeting_records merge_tasks_and_actions at hr
    have hr2 : r ∈ (my_branch_tasks db uid mid false today).map taskToTRec ++
        fetch_action_items_meeting db mid (task_status_filter_str false) :=
      ((List.perm_insertionSort mergeRel _).mem_iff).mp
        (List.mem_of_mem_take hr)
    rcases List.mem_append.mp hr2 with hA | hB
    · rcases List.mem_map.mp hA with ⟨t, ht, rfl⟩
      have ht2 : t ∈ db.tasks.filter (fun t =>
          t.user_id == uid && t.meeting_id == mid &&
          t.status == "TODO".data) := by
        unfold my_branch_tasks at ht
        exact ((List.perm_insertionSort _ _).mem_iff).mp
          (List.mem_of_mem_take ht)
      have hp := (List.mem_filter.mp ht2).2
      simp only [Bool.and_eq_true, beq_iff_eq] at hp
      obtain ⟨⟨hu, hm⟩, hs⟩ := hp
      refine ⟨hs, congrArg some hm, fun _ => congrArg some hu, ?_⟩
      intro hsrc
      have hx : "task".data = "action_item".data := hsrc
      exact absurd hx (by decide)
    · have hB2 : r ∈ ((List.insertionSort aiRel (db.action_items.filter
          (fun ai => ai.meeting_id == some mid && !ai.is_completed))).take
            20).map (aiToTRec db) := hB
      rcases List.mem_map.mp hB2 with ⟨ai, hai, rfl⟩
      have hai2 := ((List.perm_insertionSort _ _).mem_iff).mp
        (List.mem_of_mem_take hai)
      have hp := (List.mem_filter.mp hai2).2
      simp only [Bool.and_eq_true, beq_iff_eq, Bool.not_eq_true'] at hp
      obtain ⟨hm, hc⟩ := hp
      refine ⟨?_, hm, ?_, ?_⟩
      · simp [aiToTRec, hc]
      · intro hsrc
        have hx : "action_item".data = "task".data := hsrc
        exact absurd hx (by decide)
      · intro _
        exact ⟨ai, (List.mem_filter.mp hai2).1, hm, hc, rfl⟩
  · unfold search_tasks_my_meeting_records merge_tasks_and_actions
    exact List.Pairwise.sublist (List.take_sublist 30 _)
      (@List.sorted_insertionSort TRec mergeRel _
        ⟨fun a b => key2Le_total (mergeKey a) (mergeKey b)⟩
        ⟨fun a b c hab hbc => key2Le_trans (mergeKey a) (mergeKey b)
          (mergeKey c) hab hbc⟩ _)
  · unfold search_tasks_my_meeting_records merge_tasks_and_actions
    exact List.length_take_le 30 _

theorem C4_my_tasks_meeting_witness :
    findOtherName "내가 해야 할 일".data (otherNamesOf c4_db 1) = none ∧
    search_tasks_branch zeroSim "내가 해야 할 일".data (otherNamesOf c4_db 1)
      (some 5) = TaskBranch.myTasksMeeting :=
  ⟨by decide,
   (C4_my_tasks_meeting_amended zeroSim c4_db 1 5 (otherNamesOf c4_db 1)
     "2025-10-12".data (by decide)).1⟩

/-- Counterexample to C4 as stated: user 1 asks `내가 해야 할 일` in the
context of meeting 5, which has one open action item assigned to the OTHER
user 김철수 and no task rows; the branch taken is the claimed one, yet the
returned list contains 김철수's record, so the output is not restricted to
records whose assignee is the requester. -/
theorem C4_other_assignee_counterexample :
    search_tasks_branch zeroSim "내가 해야 할 일".data (otherNamesOf c4_db 1)
      (some 5) = TaskBranch.myTasksMeeting ∧
    search_tasks_my_meeting_records c4_db 1 5 false "2025-10-12".data =
      [aiToTRec c4_db c4_ai] ∧
    (aiToTRec c4_db c4_ai).assignee_name = some "김철수".data ∧
    (aiToTRec c4_db c4_ai).user_id ≠ some 1 := by
  decide

theorem hangul_not_alnum (c : Char) (hc : isHangul c = true) :
    isAsciiAlnum c = false := by
  have h2 : 44032 ≤ c.val.toNat := by
    simp only [isHangul, Bool.and_eq_true, decide_eq_true_eq] at hc
    exact hc.1
  unfold isAsciiAlnum
  simp only [Char.isDigit, Char.isUpper, Char.isLower, Bool.or_eq_false_iff,
    Bool.and_eq_false_iff, decide_eq_false_iff_not]
  refine ⟨⟨?_, ?_⟩, ?_⟩ <;> right <;> intro hle <;>
    (have h3 : c.val.toNat ≤ 122 := le_trans hle (by decide); omega)

theorem mem_joinWith (sep : Str) : ∀ (ks : List Str) (c : Char),
    c ∈ joinWith sep ks → (∃ k ∈ ks, c ∈ k) ∨ c ∈ sep
  | [], c, hc => absurd hc (List.not_mem_nil c)
  | [k], c, hc => Or.inl ⟨k, List.mem_cons_self k [], hc⟩
  | k :: y :: xs, c, hc => by
    have hc2 : c ∈ k ++ sep ++ joinWith sep (y :: xs) := hc
    rcases List.mem_append.mp hc2 with h1 | h1
    · rcases List.mem_append.mp h1 with h2 | h2
      · exact Or.inl ⟨k, List.mem_cons_self _ _, h2⟩
      · exact Or.inr h2
    · rcases mem_joinWith sep (y :: xs) c h1 with ⟨a, ha, hca⟩ | h2
      · exact Or.inl ⟨a, List.mem_cons_of_mem _ ha, hca⟩
      · exact Or.inr h2

theorem runsByAux_cons (p : Char → Bool) (c : Char) (s : Str) :
    runsByAux p (c :: s) =
    (if p c then
      ((match (runsByAux p s).2, (runsByAux p s).1 with
        | true, run :: rest => (c :: run) :: rest
        | _, rs => [c] :: rs), true)
    else ((runsByAux p s).1, false)) := rfl

theorem runsByAux_not (p : Char → Bool) : ∀ (s : Str),
    (∀ c ∈ s, p c = false) → runsByAux p s = ([], false)
  | [], _ => rfl
  | c :: t, h => by
    have ih := runsByAux_not p t (fun x hx => h x (List.mem_cons_of_mem c hx))
    have hc := h c (List.mem_cons_self c t)
    rw [runsByAux_cons, ih, hc]
    rfl

theorem runsBy_nil_of (p : Char → Bool) (s : Str)
    (h : ∀ c ∈ s, p c = false) : runsBy p s = [] := by
  unfold runsBy
  rw [runsByAux_not p s h]

theorem runsByAux_sep (p : Char → Bool) (c : Char) (hc : p c = false)
    (s : Str) : runsByAux p (c :: s) = ((runsByAux p s).1, false) := by
  rw [runsByAux_cons, hc]
  rfl

theorem runsByAux_run (p : Char → Bool) : ∀ (k : Str), k ≠ [] →
    k.all p = true → ∀ s : Str, (runsByAux p s).2 = false →
    runsByAux p (k ++ s) = (k :: (runsByAux p s).1, true)
  | [], hne, _, _, _ => absurd rfl hne
  | [c], _, hall, s, hs => by
    have hc : p c = true := by simpa using hall
    show runsByAux p (c :: s) = ([c] :: (runsByAux p s).1, true)
    rw [runsByAux_cons, hc, hs]
    rfl
  | c :: d :: t, _, hall, s, hs => by
    have hc : p c = true :=
      List.all_eq_true.mp hall c (List.mem_cons_self _ _)
    have hall2 : (d :: t).all p = true := by
      apply List.all_eq_true.mpr
      intro x hx
      exact List.all_eq_true.mp hall x (List.mem_cons_of_mem c hx)
    have ih := runsByAux_run p (d :: t) (by simp) hall2 s hs
    show runsByAux p (c :: ((d :: t) ++ s)) =
      ((c :: d :: t) :: (runsByAux p s).1, true)
    rw [runsByAux_cons, ih, hc]
    rfl

theorem runsBy_joinWith (p : Char → Bool) (sep : Char)
    (hsep : p sep = false) :
    ∀ ks : List Str, (∀ k ∈ ks, k ≠ [] ∧ k.all p = true) →
      runsBy p (joinWith [sep] ks) = ks
  | [], _ => rfl
  | [k], h => by
    have hk := h k (List.mem_cons_self k [])
    have hrun := runsByAux_run p k hk.1 hk.2 [] rfl
    rw [List.append_nil] at hrun
    show (runsByAux p k).1 = [k]
    rw [hrun]
    rfl
  | k :: y :: xs, h => by
    have hk := h k (List.mem_cons_self _ _)
    have hrest : runsBy p (joinWith [sep] (y :: xs)) = y :: xs :=
      runsBy_joinWith p sep hsep (y :: xs)
        (fun a ha => h a (List.mem_cons_of_mem _ ha))
    have hsep2 : runsByAux p (sep :: joinWith [sep] (y :: xs)) =
        ((runsByAux p (joinWith [sep] (y :: xs))).1, false) :=
      runsByAux_sep p sep hsep _
    have hrun := runsByAux_run p k hk.1 hk.2
      (sep :: joinWith [sep] (y :: xs)) (by rw [hsep2])
    show (runsByAux p (k ++ [sep] ++ joinWith [sep] (y :: xs))).1 =
      k :: y :: xs
    have hassoc : k ++ [sep] ++ joinWith [sep] (y :: xs) =
        k ++ (sep :: joinWith [sep] (y :: xs)) := by
      rw [List.append_assoc]; rfl
    rw [hassoc, hrun]
    show k :: (runsByAux p (sep :: joinWith [sep] (y :: xs))).1 =
      k :: y :: xs
    rw [hsep2]
    unfold runsBy at hrest
    rw [hrest]

theorem pyDedupAux_eq_self {α : Type} [DecidableEq α] :
    ∀ (l : List α) (seen : List α), l.Nodup → (∀ x ∈ l, x ∉ seen) →
      pyDedupAux seen l = l
  | [], _, _, _ => rfl
  | x :: xs, seen, hnd, hs => by
    unfold pyDedupAux
    rw [if_neg (hs x (List.mem_cons_self x xs))]
    congr 1
    apply pyDedupAux_eq_self xs (x :: seen) (List.nodup_cons.mp hnd).2
    intro a ha hmem
    rcases List.mem_cons.mp hmem with h1 | h1
    · subst h1; exact (List.nodup_cons.mp hnd).1 ha
    · exact hs a (List.mem_cons_of_mem x ha) h1

theorem pyDedupAux_nodup {α : Type} [DecidableEq α] :
    ∀ (l : List α) (seen : List α), (pyDedupAux seen l).Nodup
  | [], _ => List.nodup_nil
  | x :: xs, seen => by
    unfold pyDedupAux
    by_cases hx : x ∈ seen
    · rw [if_pos hx]; exact pyDedupAux_nodup xs seen
    · rw [if_neg hx]
      refine List.nodup_cons.mpr ⟨?_, pyDedupAux_nodup xs (x :: seen)⟩
      intro hmem
      exact ((mem_pyDedupAux xs (x :: seen) x).mp hmem).2
        (List.mem_cons_self x seen)

theorem pyDedup_nodup {α : Type} [DecidableEq α] (l : List α) :
    (pyDedup l).Nodup := pyDedupAux_nodup l []

theorem pyDedup_eq_self {α : Type} [DecidableEq α] (l : List α)
    (hnd : l.Nodup) : pyDedup l = l :=
  pyDedupAux_eq_self l [] hnd (fun x _ h => (List.not_mem_nil x) h)

theorem map_eq_self_of {α : Type} (f : α → α) :
    ∀ (l : List α), (∀ a ∈ l, f a = a) → l.map f = l
  | [], _ => rfl
  | x :: xs, h => by
    simp only [List.map_cons]
    rw [h x (List.mem_cons_self x xs),
      map_eq_self_of f xs (fun a ha => h a (List.mem_cons_of_mem x ha))]

theorem extract_keywords_not_meaningless (q : Str) (k : Str)
    (hk : k ∈ extract_keywords_from_query q) : is_meaningless k = false := by
  simp only [extract_keywords_from_query] at hk
  have h1 := (mem_pyDedup _ k).mp hk
  have h2 := (List.mem_filter.mp h1).2
  simpa using h2

theorem extract_keywords_nodup (q : Str) :
    (extract_keywords_from_query q).Nodup := by
  unfold extract_keywords_from_query
  exact pyDedupAux_nodup _ []

/-- Claim C3 (corrected): the Keyword Extractor is NOT idempotent in
general - the compound split keeps shortening tokens that still end in
`회의`/`관련` across runs - but it is idempotent on every input whose
first-run keywords are all-Hangul tokens of length at least two that the
compound split leaves unchanged: re-extracting from the space-joined
output returns exactly the first run's list. -/
theorem C3_idempotent_amended (q : Str)
    (h : ∀ k ∈ extract_keywords_from_query q,
      k.all isHangul = true ∧ 2 ≤ k.length ∧ splitCompound k = k) :
    extract_keywords_from_query
      (joinKws (extract_keywords_from_query q)) =
    extract_keywords_from_query q := by
  have hnm : ∀ k ∈ extract_keywords_from_query q, is_meaningless k = false :=
    fun k hk => extract_keywords_not_meaningless q k hk
  have hnd := extract_keywords_nodup q
  set ks := extract_keywords_from_query q with hks
  have hne : ∀ k ∈ ks, k ≠ [] := by
    intro k hk he
    have h2 := (h k hk).2.1
    rw [he] at h2
    simp at h2
  have h1 : runsBy isHangul (joinKws ks) = ks := by
    unfold joinKws
    exact runsBy_joinWith isHangul ' ' (by decide) ks
      (fun k hk => ⟨hne k hk, (h k hk).1⟩)
  have h2 : runsBy isAsciiAlnum (joinKws ks) = [] := by
    apply runsBy_nil_of
    intro c hc
    rcases mem_joinWith _ _ c hc with ⟨k, hk, hck⟩ | hsep
    · exact hangul_not_alnum c (List.all_eq_true.mp (h k hk).1 c hck)
    · have hsp : c = ' ' := by simpa using hsep
      subst hsp; decide
  simp only [extract_keywords_from_query]
  rw [h1, h2]
  have h3 : processEnglishTokens (joinKws ks) [] = [] := rfl
  rw [h3, List.append_nil]
  rw [List.filter_eq_self.mpr (fun k hk => decide_eq_true (h k hk).2.1)]
  rw [map_eq_self_of splitCompound ks (fun k hk => (h k hk).2.2)]
  rw [List.filter_eq_self.mpr (fun k hk => by rw [hnm k hk]; rfl)]
  exact pyDedup_eq_self ks hnd

theorem C3_idempotent_witness :
    (∀ k ∈ extract_keywords_from_query "디자인 회의 있었어?".data,
      k.all isHangul = true ∧ 2 ≤ k.length ∧ splitCompound k = k) ∧
    extract_keywords_from_query
      (joinKws (extract_keywords_from_query "디자인 회의 있었어?".data)) =
    extract_keywords_from_query "디자인 회의 있었어?".data :=
  ⟨by decide, C3_idempotent_amended "디자인 회의 있었어?".data (by decide)⟩

/-- Counterexample to C3 as stated: `보안관련회의` extracts to
`[보안관련]` (the compound split removes the trailing `회의`); re-running
the extractor on the joined output `보안관련` splits again at the trailing
`관련` and yields `[보안]`, a different list. -/
theorem C3_idempotence_counterexample :
    extract_keywords_from_query "보안관련회의".data = ["보안관련".data] ∧
    extract_keywords_from_query
      (joinKws (extract_keywords_from_query "보안관련회의".data)) =
      ["보안".data] ∧
    ["보안".data] ≠ ["보안관련".data] := by decide
